import Mathlib

/-!
Shallow embedding of the riscv-rs RV32I simulator, translated from the Rust
sources, together with theorems settling the specification claims.

Machine integers (u8, u16, u32, u64) are represented as Nat; wherever the Rust
code relies on fixed-width wrap-around, the embedding applies an explicit
mod 2 to the 32nd power (written U32MOD below).  Signed 32-bit values (i32) are
represented as Int, converted with toI32 / toU32.  Rust release-mode overflow
semantics are used: plus, minus and times wrap; shifts mask their amount to the
low five bits; Rust panics are modelled as Option.none (or Except.error where
the source returns Result).
-/

set_option maxRecDepth 10000

/-- Modulus for unsigned 32-bit wrap-around. -/
def U32MOD : Nat := 4294967296

/-- Interpret the low 32 bits of a Nat as a two's-complement signed value. -/
def toI32 (n : Nat) : Int :=
  if n % U32MOD < 2147483648 then ((n % U32MOD : Nat) : Int)
  else ((n % U32MOD : Nat) : Int) - (U32MOD : Int)

/-- Cast a signed value to its unsigned 32-bit bit pattern (Rust "as u32"). -/
def toU32 (x : Int) : Nat := (x % (U32MOD : Int)).toNat

/-- Wrap an Int into the i32 range, mirroring two's-complement truncation. -/
def wrapI32 (x : Int) : Int := toI32 (toU32 x)

/-- Rust u32 wrapping addition. -/
def add32 (a b : Nat) : Nat := (a + b) % U32MOD

/-- Rust u32 wrapping subtraction (a - b in release mode). -/
def sub32 (a b : Nat) : Nat := (a + (U32MOD - b % U32MOD)) % U32MOD

/-- Rust i32 saturating_add. -/
def satAddI32 (a b : Int) : Int :=
  let r := a + b
  if r < -2147483648 then -2147483648
  else if r > 2147483647 then 2147483647
  else r

/-- Rust u32 saturating_add_signed (u32 base plus i32 delta, clamped). -/
def satAddSigned32 (a : Nat) (d : Int) : Nat :=
  let r := (a : Int) + d
  if r < 0 then 0
  else if r > ((U32MOD : Int) - 1) then U32MOD - 1
  else r.toNat

/-- Rust i32 arithmetic right shift (sign extending); shift amount in Nat. -/
def shrI32 (x : Int) (s : Nat) : Int := x >>> s

/- ===== src/utils.rs ===== -/

/-- Two-slot latch cell from src/utils.rs: LatchValue with value, next and
default slots. -/
structure LatchValue (T : Type) where
  value : T
  next : T
  default : T
deriving DecidableEq, Repr

/-- LatchValue::new -/
def LatchValue.new {T : Type} (v : T) : LatchValue T := ⟨v, v, v⟩

/-- LatchValue::get (observes the visible slot). -/
def LatchValue.get {T : Type} (l : LatchValue T) : T := l.value

/-- LatchValue::set (writes the shadow slot only). -/
def LatchValue.set {T : Type} (l : LatchValue T) (v : T) : LatchValue T :=
  { l with next := v }

/-- LatchValue::latch_next (copies the shadow into the visible slot). -/
def LatchValue.latchNext {T : Type} (l : LatchValue T) : LatchValue T :=
  { l with value := l.next }

/-- LatchValue::reset (restores both slots to the constructor default). -/
def LatchValue.reset {T : Type} (l : LatchValue T) : LatchValue T :=
  { l with value := l.default, next := l.default }

/-- Apply a list of LatchValue::set calls in order (models the arbitrary
sequence of set calls a unit may perform during one compute phase). -/
def LatchValue.applySets {T : Type} (l : LatchValue T) : List T → LatchValue T
  | [] => l
  | v :: vs => (l.set v).applySets vs

/-- utils.rs sign_extend_32: (value shifted left by 32-bits then arithmetically
shifted back), on i32 values. -/
def sign_extend_32 (bits : Nat) (value : Int) : Int :=
  let extendBits := 32 - bits
  shrI32 (wrapI32 (value * (2 ^ extendBits : Nat))) extendBits

/-- utils.rs slice_32.  The span subtraction and the shift by
position - span mirror the u32 arithmetic of the source; every call site in
the repository keeps both subtractions nonnegative. -/
def slice_32 (f t value position : Nat) : Nat :=
  let span := f - t + 1
  let sliced := (value >>> t) &&& ((1 <<< (span % 32)) - 1)
  if position ≠ 0 then sliced <<< (position - span) else sliced

/-- utils.rs bit: extract one bit and place it at position - 1. -/
def bit (index value position : Nat) : Nat :=
  ((value >>> index) &&& 1) <<< (position - 1)

/- ===== src/csr/mod.rs ===== -/

def CSR_OPERATION_RW : Nat := 0b001
def CSR_OPERATION_RS : Nat := 0b010
def CSR_OPERATION_RC : Nat := 0b011

def CSRM_MODE_MISA : Nat := 0x301
def CSRM_MODE_MVENDORID : Nat := 0xF11
def CSRM_MODE_MARCHID : Nat := 0xF12
def CSRM_MODE_MIMPID : Nat := 0xF13
def CSRM_MODE_MHARTID : Nat := 0xF14
def CSRM_MODE_MSTATUS : Nat := 0x300
def CSRM_MODE_MTVEC : Nat := 0x305
def CSRM_MODE_MIE : Nat := 0x304
def CSRM_MODE_MIP : Nat := 0x344
def CSRM_MODE_MCAUSE : Nat := 0x342
def CSRM_MODE_MEPC : Nat := 0x341
def CSRM_MODE_MSCRATCH : Nat := 0x340
def CSRM_MODE_MTVAL : Nat := 0x343

def MSTATUS_MASK : Nat := (1 <<< 3) ||| (1 <<< 7)

/-- CSRInterface from src/csr/mod.rs (cycles, instret and mtimecmp are u64
latches; the remaining registers are plain u32 fields). -/
structure CSRInterface where
  cycles : LatchValue Nat
  instret : LatchValue Nat
  misa : Nat
  mvendorid : Nat
  marchid : Nat
  mimpid : Nat
  mhartid : Nat
  mstatus : Nat
  mtvec : Nat
  mie : Nat
  mip : Nat
  mcause : Nat
  mepc : Nat
  mscratch : Nat
  mtval : Nat
  mtimecmp : LatchValue Nat
deriving DecidableEq, Repr

/-- CSRInterface::new -/
def CSRInterface.new : CSRInterface where
  cycles := LatchValue.new 0
  instret := LatchValue.new 0
  misa := 0x40000100
  mvendorid := 0
  marchid := 0
  mimpid := 0
  mhartid := 0
  mstatus := 0
  mtvec := 0x10000004
  mie := 0x00000888
  mip := 0
  mcause := 0
  mepc := 0
  mscratch := 0
  mtval := 0
  mtimecmp := LatchValue.new 0

/-- CSRInterface::read.  The panic on an unknown CSR address is modelled as
Option.none. -/
def CSRInterface.read (c : CSRInterface) (address : Nat) : Option Nat :=
  if address = 0xC00 then some (c.cycles.get % U32MOD)
  else if address = 0xC01 then some (c.cycles.get % U32MOD)
  else if address = 0xC02 then some (c.instret.get % U32MOD)
  else if address = 0xC80 then some ((c.cycles.get >>> 32) % U32MOD)
  else if address = 0xC81 then some ((c.cycles.get >>> 32) % U32MOD)
  else if address = 0xC82 then some ((c.instret.get >>> 32) % U32MOD)
  else if address = CSRM_MODE_MISA then some c.misa
  else if address = CSRM_MODE_MVENDORID then some c.mvendorid
  else if address = CSRM_MODE_MARCHID then some c.marchid
  else if address = CSRM_MODE_MIMPID then some c.mimpid
  else if address = CSRM_MODE_MHARTID then some c.mhartid
  else if address = CSRM_MODE_MSTATUS then some c.mstatus
  else if address = CSRM_MODE_MTVEC then some c.mtvec
  else if address = CSRM_MODE_MIE then some c.mie
  else if address = CSRM_MODE_MIP then some c.mip
  else if address = CSRM_MODE_MCAUSE then some c.mcause
  else if address = CSRM_MODE_MEPC then some c.mepc
  else if address = CSRM_MODE_MSCRATCH then some c.mscratch
  else if address = CSRM_MODE_MTVAL then some c.mtval
  else none

/-- CSRInterface::write.  The source computes is_read_only as address shifted
right by 10 and panics (modelled as none) whenever it is nonzero; accepted
writes fall through a match whose default arm silently does nothing. -/
def CSRInterface.write (c : CSRInterface) (address value : Nat) :
    Option CSRInterface :=
  let isReadOnly := address >>> 10
  if isReadOnly ≠ 0 then none
  else if address = CSRM_MODE_MSTATUS then
    some { c with mstatus := value &&& MSTATUS_MASK }
  else if address = CSRM_MODE_MIE then some { c with mie := value }
  else if address = CSRM_MODE_MIP then some { c with mip := value }
  else if address = CSRM_MODE_MCAUSE then some { c with mcause := value }
  else if address = CSRM_MODE_MEPC then some { c with mepc := value }
  else if address = CSRM_MODE_MSCRATCH then some { c with mscratch := value }
  else if address = CSRM_MODE_MTVAL then some { c with mtval := value }
  else some c

/-- CSRInterface::compute (increments the cycles shadow). -/
def CSRInterface.compute (c : CSRInterface) : CSRInterface :=
  { c with cycles := c.cycles.set (c.cycles.get + 1) }

/-- CSRInterface::latch_next -/
def CSRInterface.latchNext (c : CSRInterface) : CSRInterface :=
  { c with
    cycles := c.cycles.latchNext
    instret := c.instret.latchNext
    mtimecmp := c.mtimecmp.latchNext }

/- ===== src/system_interface/{rom.rs, ram.rs, mod.rs} ===== -/

inductive MMIOError where
  | unalignedRead (address : Nat)
  | unalignedWrite (address value : Nat)
deriving DecidableEq, Repr

def ROM_MASK : Nat := 1024 * 1024 / 4 - 1
def RAM_MASK : Nat := 1024 * 1024 * 4 / 4 - 1

/-- RomDevice backing store, modelled as a function from word index to the
stored u32 word (the Rust Vec has a fixed length and every access is masked
into range, so the function view is faithful on all reachable indices). -/
structure RomDevice where
  rom : Nat → Nat

/-- RomDevice::new (every word preset to 0xFFFFFFFF). -/
def RomDevice.new : RomDevice := ⟨fun _ => 0xFFFFFFFF⟩

/-- RomDevice::load: copy the provided words, fill the rest with
0xFFFFFFFF.  The source loop stops at the capacity; the function view keeps
data beyond it, but no access ever reaches those indices because every read
masks its word index with ROM_MASK. -/
def RomDevice.load (_r : RomDevice) (data : List Nat) : RomDevice :=
  ⟨fun i => if i < data.length then data.getD i 0 else 0xFFFFFFFF⟩

/-- RomDevice big-endian-within-word byte lane read. -/
def RomDevice.read_byte (r : RomDevice) (address : Nat) : Nat :=
  let value := r.rom ((address >>> 2) &&& ROM_MASK)
  match address &&& 0b11 with
  | 0b00 => (value &&& 0xFF000000) >>> 24
  | 0b01 => (value &&& 0x00FF0000) >>> 16
  | 0b10 => (value &&& 0x0000FF00) >>> 8
  | _ => value &&& 0x000000FF

/-- RomDevice half-word lane read. -/
def RomDevice.read_half_word (r : RomDevice) (address : Nat) : Nat :=
  let value := r.rom ((address >>> 2) &&& ROM_MASK)
  match address &&& 0b10 with
  | 0 => (value &&& 0xFFFF0000) >>> 16
  | _ => value &&& 0x0000FFFF

/-- RomDevice::read_word -/
def RomDevice.read_word (r : RomDevice) (address : Nat) : Nat :=
  r.rom ((address >>> 2) &&& ROM_MASK)

/-- RamDevice backing store, same function view as RomDevice. -/
structure RamDevice where
  ram : Nat → Nat

/-- RamDevice::new -/
def RamDevice.new : RamDevice := ⟨fun _ => 0xFFFFFFFF⟩

/-- RamDevice byte lane read. -/
def RamDevice.read_byte (r : RamDevice) (address : Nat) : Nat :=
  let value := r.ram ((address >>> 2) &&& RAM_MASK)
  match address &&& 0b11 with
  | 0b00 => (value &&& 0xFF000000) >>> 24
  | 0b01 => (value &&& 0x00FF0000) >>> 16
  | 0b10 => (value &&& 0x0000FF00) >>> 8
  | _ => value &&& 0x000000FF

/-- RamDevice half-word lane read. -/
def RamDevice.read_half_word (r : RamDevice) (address : Nat) : Nat :=
  let value := r.ram ((address >>> 2) &&& RAM_MASK)
  match address &&& 0b10 with
  | 0 => (value &&& 0xFFFF0000) >>> 16
  | _ => value &&& 0x0000FFFF

/-- RamDevice::read_word -/
def RamDevice.read_word (r : RamDevice) (address : Nat) : Nat :=
  r.ram ((address >>> 2) &&& RAM_MASK)

/-- RamDevice::write_byte: merge the byte into its lane, preserving the other
lanes of the containing word. -/
def RamDevice.write_byte (r : RamDevice) (address value : Nat) : RamDevice :=
  let index := (address >>> 2) &&& RAM_MASK
  let currentValue := r.ram index
  let newWord :=
    match address &&& 0b11 with
    | 0b00 => (currentValue &&& 0x00FFFFFF) ||| (value <<< 24)
    | 0b01 => (currentValue &&& 0xFF00FFFF) ||| (value <<< 16)
    | 0b10 => (currentValue &&& 0xFFFF00FF) ||| (value <<< 8)
    | _ => (currentValue &&& 0xFFFFFF00) ||| value
  ⟨fun i => if i = index then newWord else r.ram i⟩

/-- RamDevice::write_half_word -/
def RamDevice.write_half_word (r : RamDevice) (address value : Nat) :
    RamDevice :=
  let index := (address >>> 2) &&& RAM_MASK
  let currentValue := r.ram index
  let newWord :=
    match address &&& 0b10 with
    | 0 => (currentValue &&& 0x0000FFFF) ||| (value <<< 16)
    | _ => (currentValue &&& 0xFFFF0000) ||| value
  ⟨fun i => if i = index then newWord else r.ram i⟩

/-- RamDevice::write_word -/
def RamDevice.write_word (r : RamDevice) (address value : Nat) : RamDevice :=
  let index := (address >>> 2) &&& RAM_MASK
  ⟨fun i => if i = index then value else r.ram i⟩

def PROGRAM_ROM_START : Nat := 0x10000000
def RAM_START : Nat := 0x20000000

/-- SystemInterface from src/system_interface/mod.rs: the bus with address
decoding and alignment checks.  ROM writes are silently ignored (the RomDevice
write methods do nothing). -/
structure SystemInterface where
  rom : RomDevice
  ram : RamDevice

/-- SystemInterface::new -/
def SystemInterface.new (rom : RomDevice) (ram : RamDevice) : SystemInterface :=
  ⟨rom, ram⟩

/-- Bus read_byte: no alignment check; unmapped regions read zero. -/
def SystemInterface.read_byte (s : SystemInterface) (address : Nat) :
    Except MMIOError Nat :=
  if address &&& PROGRAM_ROM_START = PROGRAM_ROM_START then
    .ok (s.rom.read_byte (address &&& 0x0FFFFFFF))
  else if address &&& RAM_START = RAM_START then
    .ok (s.ram.read_byte (address &&& 0x0FFFFFFF))
  else .ok 0

/-- Bus read_half_word: checks the low address bit before dispatch. -/
def SystemInterface.read_half_word (s : SystemInterface) (address : Nat) :
    Except MMIOError Nat :=
  if address &&& 0b1 ≠ 0 then .error (.unalignedRead address)
  else if address &&& PROGRAM_ROM_START = PROGRAM_ROM_START then
    .ok (s.rom.read_half_word (address &&& 0x0FFFFFFF))
  else if address &&& RAM_START = RAM_START then
    .ok (s.ram.read_half_word (address &&& 0x0FFFFFFF))
  else .ok 0

/-- Bus read_word: checks the low two address bits before dispatch. -/
def SystemInterface.read_word (s : SystemInterface) (address : Nat) :
    Except MMIOError Nat :=
  if address &&& 0b11 ≠ 0 then .error (.unalignedRead address)
  else if address &&& PROGRAM_ROM_START = PROGRAM_ROM_START then
    .ok (s.rom.read_word (address &&& 0x0FFFFFFF))
  else if address &&& RAM_START = RAM_START then
    .ok (s.ram.read_word (address &&& 0x0FFFFFFF))
  else .ok 0

/-- Bus write_byte: only the RAM region is writable; every other write is
accepted and dropped. -/
def SystemInterface.write_byte (s : SystemInterface) (address value : Nat) :
    Except MMIOError SystemInterface :=
  if address &&& RAM_START = RAM_START then
    .ok { s with ram := s.ram.write_byte (address &&& 0x0FFFFFFF) value }
  else .ok s

/-- Bus write_half_word: alignment is checked before region dispatch. -/
def SystemInterface.write_half_word (s : SystemInterface)
    (address value : Nat) : Except MMIOError SystemInterface :=
  if address &&& 0b1 ≠ 0 then .error (.unalignedWrite address value)
  else if address &&& RAM_START = RAM_START then
    .ok { s with ram := s.ram.write_half_word (address &&& 0x0FFFFFFF) value }
  else .ok s

/-- Bus write_word: alignment is checked before region dispatch. -/
def SystemInterface.write_word (s : SystemInterface) (address value : Nat) :
    Except MMIOError SystemInterface :=
  if address &&& 0b11 ≠ 0 then .error (.unalignedWrite address value)
  else if address &&& RAM_START = RAM_START then
    .ok { s with ram := s.ram.write_word (address &&& 0x0FFFFFFF) value }
  else .ok s

/- ===== src/trap/mod.rs constants and records ===== -/

def MCAUSE_LOAD_ADDRESS_MISALIGNED : Nat := 0x00000004

def MSTATUS_MIE_BIT : Nat := 3
def MSTATUS_MIE_MASK : Nat := 1 <<< MSTATUS_MIE_BIT
def MSTATUS_MPIE_BIT : Nat := 7
def MSTATUS_MPIE_MASK : Nat := 1 <<< MSTATUS_MPIE_BIT

inductive TrapState where
  | Idle
  | SetCSRJump
  | SetPc
  | ReturnFromTrap
deriving DecidableEq, Repr

/-- PipelineTrapParams: the trap request record a pipeline stage publishes on
its output. -/
structure PipelineTrapParams where
  mepc : Nat
  mcause : Nat
  mtval : Nat
  trap : Bool
deriving DecidableEq, Repr

/-- Default PipelineTrapParams (all zero, trap not raised). -/
def PipelineTrapParams.default : PipelineTrapParams :=
  ⟨0, 0, 0, false⟩

/- ===== src/pipeline/decode.rs ===== -/

inductive DecodedInstruction where
  | None
  | Alu (opcode funct3 shamt imm11_0 rd rs1 rs2 : Nat) (imm32 : Int)
  | Store (funct3 rs1 rs2 : Nat) (imm32 : Int)
  | Load (funct3 rd rs1 : Nat) (imm32 : Int)
  | Lui (rd imm32 : Nat)
  | Jal (rd branch_address : Nat)
  | Branch (funct3 branch_address rs1 rs2 : Nat)
  | System (funct3 csr_address rd source : Nat)
      (should_write should_read : Bool)
  | Auipc (rd imm32 : Nat)
deriving DecidableEq, Repr

/- ===== src/pipeline/fetch.rs ===== -/

/-- InstructionValue: the Fetch stage output record. -/
structure InstructionValue where
  pc : Nat
  pc_plus_4 : Nat
  raw_instruction : Nat
deriving DecidableEq, Repr

/-- InstructionFetch stage latches. -/
structure InstructionFetch where
  pc : LatchValue Nat
  pc_plus_4 : LatchValue Nat
  raw_instruction : LatchValue Nat
deriving DecidableEq, Repr

/-- InstructionFetch::new -/
def InstructionFetch.new : InstructionFetch where
  pc := LatchValue.new PROGRAM_ROM_START
  pc_plus_4 := LatchValue.new PROGRAM_ROM_START
  raw_instruction := LatchValue.new 0x00000000

/-- InstructionFetch::get_instruction_value_out -/
def InstructionFetch.get_instruction_value_out (st : InstructionFetch) :
    InstructionValue :=
  ⟨st.pc.get, st.pc_plus_4.get, st.raw_instruction.get⟩

/-- InstructionFetch::compute.  A bus read error panics in the source; the
panic is modelled as none. -/
def InstructionFetch.compute (st : InstructionFetch) (should_stall : Bool)
    (branch_address : Option Nat) (bus : SystemInterface) :
    Option InstructionFetch :=
  if should_stall then some st
  else
    let nextAddress :=
      match branch_address with
      | some ba => ba
      | none => st.pc_plus_4.get
    match bus.read_word nextAddress with
    | .error _ => none
    | .ok value =>
      some { st with
        raw_instruction := st.raw_instruction.set value
        pc := st.pc.set nextAddress
        pc_plus_4 := st.pc_plus_4.set (add32 nextAddress 4) }

/-- InstructionFetch::latch_next -/
def InstructionFetch.latchNext (st : InstructionFetch) : InstructionFetch where
  pc := st.pc.latchNext
  pc_plus_4 := st.pc_plus_4.latchNext
  raw_instruction := st.raw_instruction.latchNext

/-- InstructionFetch::reset (restores each latch to its default). -/
def InstructionFetch.reset (st : InstructionFetch) : InstructionFetch where
  pc := st.pc.reset
  pc_plus_4 := st.pc_plus_4.reset
  raw_instruction := st.raw_instruction.reset

/- ===== src/pipeline/decode.rs stage ===== -/

/-- DecodedValue: the Decode stage output record.  The snapshot's decode.rs
reports MRET through a trap_return callback; the top level (lib.rs) consumes
it as the return_from_trap flag of this record, so the flag is carried here
as a latched output.  The trap_params field exists on the record consumed by
lib.rs; this version of Decode never raises it. -/
structure DecodedValue where
  instruction : DecodedInstruction
  raw_instruction : Nat
  pc : Nat
  pc_plus_4 : Nat
  return_from_trap : Bool
  trap_params : PipelineTrapParams
deriving DecidableEq, Repr

/-- InstructionDecode stage latches. -/
structure InstructionDecode where
  instruction : LatchValue DecodedInstruction
  raw_instruction : LatchValue Nat
  pc : LatchValue Nat
  pc_plus_4 : LatchValue Nat
  return_from_trap : LatchValue Bool
  trap_params : LatchValue PipelineTrapParams
deriving DecidableEq, Repr

/-- InstructionDecode::new -/
def InstructionDecode.new : InstructionDecode where
  instruction := LatchValue.new DecodedInstruction.None
  raw_instruction := LatchValue.new 0
  pc := LatchValue.new 0
  pc_plus_4 := LatchValue.new 0
  return_from_trap := LatchValue.new false
  trap_params := LatchValue.new PipelineTrapParams.default

/-- InstructionDecode::get_decoded_instruction_out -/
def InstructionDecode.get_decoded_instruction_out (st : InstructionDecode) :
    DecodedValue :=
  ⟨st.instruction.get, st.raw_instruction.get, st.pc.get, st.pc_plus_4.get,
    st.return_from_trap.get, st.trap_params.get⟩

/-- InstructionDecode::compute, translated arm by arm from decode.rs.  The
register file is a read-only function from register index to u32 value. -/
def InstructionDecode.compute (st : InstructionDecode) (should_stall : Bool)
    (instruction_in : InstructionValue) (reg_file : Nat → Nat) :
    InstructionDecode :=
  if should_stall then st
  else
    let instruction := instruction_in.raw_instruction
    let st := { st with
      raw_instruction := st.raw_instruction.set instruction
      pc := st.pc.set instruction_in.pc
      pc_plus_4 := st.pc_plus_4.set instruction_in.pc_plus_4
      return_from_trap := st.return_from_trap.set false
      trap_params := st.trap_params.set PipelineTrapParams.default }
    let opcode := instruction &&& 0x7F
    if opcode = 0b0010011 ∨ opcode = 0b0110011 then
      let imm11_0 := (instruction >>> 20) &&& 0xFFF
      let rs1Address := (instruction >>> 15) &&& 0x1F
      let rs2Address := (instruction >>> 20) &&& 0x1F
      { st with instruction := st.instruction.set (.Alu opcode
          ((instruction >>> 12) &&& 0x07)
          rs2Address
          imm11_0
          ((instruction >>> 7) &&& 0x1F)
          (if rs1Address = 0 then 0 else reg_file rs1Address)
          (if rs2Address = 0 then 0 else reg_file rs2Address)
          (sign_extend_32 12 imm11_0)) }
    else if opcode = 0b0100011 then
      let rs1Address := (instruction >>> 15) &&& 0x1F
      let rs2Address := (instruction >>> 20) &&& 0x1F
      { st with instruction := st.instruction.set (.Store
          ((instruction >>> 12) &&& 0x07)
          (if rs1Address = 0 then 0 else reg_file rs1Address)
          (if rs2Address = 0 then 0 else reg_file rs2Address)
          (sign_extend_32 12
            ((((instruction >>> 25) &&& 0x7F) <<< 5) |||
              ((instruction >>> 7) &&& 0x1F)))) }
    else if opcode = 0b0000011 then
      let imm11_0 := (instruction >>> 20) &&& 0xFFF
      let rs1Address := (instruction >>> 15) &&& 0x1F
      { st with instruction := st.instruction.set (.Load
          ((instruction >>> 12) &&& 0x07)
          ((instruction >>> 7) &&& 0x1F)
          (if rs1Address = 0 then 0 else reg_file rs1Address)
          (sign_extend_32 12 imm11_0)) }
    else if opcode = 0b0110111 then
      { st with instruction := st.instruction.set (.Lui
          ((instruction >>> 7) &&& 0x1F)
          ((instruction >>> 12) <<< 12)) }
    else if opcode = 0b1101111 then
      let restructuredImm := bit 31 instruction 20 |||
        slice_32 19 12 instruction 19 |||
        bit 20 instruction 11 |||
        slice_32 30 21 instruction 10
      let imm32 := sign_extend_32 21 ((restructuredImm <<< 1) % U32MOD)
      { st with instruction := st.instruction.set (.Jal
          ((instruction >>> 7) &&& 0x1F)
          (satAddSigned32 instruction_in.pc imm32)) }
    else if opcode = 0b1100111 then
      let imm11_0 := (instruction >>> 20) &&& 0xFFF
      let iImm := sign_extend_32 12 imm11_0
      let imm32 := slice_32 11 1 (toU32 iImm) 11
      let rs1Address := (instruction >>> 15) &&& 0x1F
      let rs1 := if rs1Address = 0 then 0 else reg_file rs1Address
      { st with instruction := st.instruction.set (.Jal
          ((instruction >>> 7) &&& 0x1F)
          (add32 rs1 imm32)) }
    else if opcode = 0b1100011 then
      let restructuredImm := bit 31 instruction 12 |||
        bit 7 instruction 11 |||
        slice_32 30 25 instruction 10 |||
        slice_32 11 8 instruction 4
      let imm32 := sign_extend_32 13 ((restructuredImm <<< 1) % U32MOD)
      let rs1Address := (instruction >>> 15) &&& 0x1F
      let rs2Address := (instruction >>> 20) &&& 0x1F
      { st with instruction := st.instruction.set (.Branch
          ((instruction >>> 12) &&& 0x07)
          (satAddSigned32 instruction_in.pc imm32)
          (if rs1Address = 0 then 0 else reg_file rs1Address)
          (if rs2Address = 0 then 0 else reg_file rs2Address)) }
    else if opcode = 0b1110011 then
      let rd := (instruction >>> 7) &&& 0x1F
      let rs1Address := (instruction >>> 15) &&& 0x1F
      let funct3 := (instruction >>> 12) &&& 0x07
      let imm11_0 := instruction >>> 20
      if rd = 0 ∧ rs1Address = 0 ∧ imm11_0 = 0x302 then
        { st with return_from_trap := st.return_from_trap.set true }
      else
        let source :=
          if funct3 &&& 0b100 = 0b100 then rs1Address
          else reg_file rs1Address
        let shouldWrite :=
          if funct3 &&& 0b11 = 0b01 then true else rs1Address ≠ 0
        let shouldRead :=
          if funct3 &&& 0b11 = 0b01 then rd ≠ 0 else true
        { st with instruction := st.instruction.set (.System funct3 imm11_0
            rd source shouldWrite shouldRead) }
    else if opcode = 0b0010111 then
      { st with instruction := st.instruction.set (.Auipc
          ((instruction >>> 7) &&& 0x1F)
          ((instruction >>> 12) <<< 12)) }
    else
      { st with instruction := st.instruction.set .None }

/-- InstructionDecode::latch_next -/
def InstructionDecode.latchNext (st : InstructionDecode) : InstructionDecode
    where
  instruction := st.instruction.latchNext
  raw_instruction := st.raw_instruction.latchNext
  pc := st.pc.latchNext
  pc_plus_4 := st.pc_plus_4.latchNext
  return_from_trap := st.return_from_trap.latchNext
  trap_params := st.trap_params.latchNext

/-- Stage reset for Decode: every latch back to its default, following the
reset pattern fetch.rs implements latch by latch. -/
def InstructionDecode.reset (st : InstructionDecode) : InstructionDecode where
  instruction := st.instruction.reset
  raw_instruction := st.raw_instruction.reset
  pc := st.pc.reset
  pc_plus_4 := st.pc_plus_4.reset
  return_from_trap := st.return_from_trap.reset
  trap_params := st.trap_params.reset

/- ===== src/pipeline/execute.rs ===== -/

def ALU_OPERATION_ADD : Nat := 0b000
def ALU_OPERATION_SLL : Nat := 0b001
def ALU_OPERATION_SLT : Nat := 0b010
def ALU_OPERATION_SLTU : Nat := 0b011
def ALU_OPERATION_XOR : Nat := 0b100
def ALU_OPERATION_SR : Nat := 0b101
def ALU_OPERATION_OR : Nat := 0b110
def ALU_OPERATION_AND : Nat := 0b111

def BRANCH_OPERATION_EQ : Nat := 0b000
def BRANCH_OPERATION_NE : Nat := 0b001
def BRANCH_OPERATION_LT : Nat := 0b100
def BRANCH_OPERATION_GE : Nat := 0b101
def BRANCH_OPERATION_LTU : Nat := 0b110
def BRANCH_OPERATION_GEU : Nat := 0b111

/-- ExecutionValue: the Execute stage output record. -/
structure ExecutionValue where
  write_back_value : Nat
  instruction : DecodedInstruction
  raw_instruction : Nat
  pc : Nat
  pc_plus_4 : Nat
deriving DecidableEq, Repr

/-- InstructionExecute stage latches. -/
structure InstructionExecute where
  write_back_value : LatchValue Nat
  instruction : LatchValue DecodedInstruction
  raw_instruction : LatchValue Nat
  pc : LatchValue Nat
  pc_plus_4 : LatchValue Nat
deriving DecidableEq, Repr

/-- InstructionExecute::new -/
def InstructionExecute.new : InstructionExecute where
  write_back_value := LatchValue.new 0
  instruction := LatchValue.new DecodedInstruction.None
  raw_instruction := LatchValue.new 0
  pc := LatchValue.new 0
  pc_plus_4 := LatchValue.new 0

/-- InstructionExecute::get_execution_value_out -/
def InstructionExecute.get_execution_value_out (st : InstructionExecute) :
    ExecutionValue :=
  ⟨st.write_back_value.get, st.instruction.get, st.raw_instruction.get,
    st.pc.get, st.pc_plus_4.get⟩

/-- The write_back_value the Alu arm of execute.rs computes.  Shift amounts
are reduced mod 32 (Rust release-mode shift masking); plus and minus wrap;
the I-type ADD arm uses i32 saturating_add exactly as the source does, and
the I-type SR arm is a logical shift exactly as the source writes it. -/
def aluWriteBackValue (opcode funct3 shamt imm11_0 rs1 rs2 : Nat)
    (imm32 : Int) : Nat :=
  let isRegisterOp := (opcode >>> 5) &&& 1 = 1
  let isAlternate := (imm11_0 >>> 10) &&& 1 = 1
  if funct3 = ALU_OPERATION_ADD then
    if isRegisterOp then
      if isAlternate then sub32 rs1 rs2 else add32 rs1 rs2
    else toU32 (satAddI32 (toI32 rs1) imm32)
  else if funct3 = ALU_OPERATION_SLL then
    if isRegisterOp then (rs1 <<< (rs2 % 32)) % U32MOD
    else (rs1 <<< (shamt % 32)) % U32MOD
  else if funct3 = ALU_OPERATION_SLT then
    if isRegisterOp then (if toI32 rs1 < toI32 rs2 then 1 else 0)
    else (if toI32 rs1 < imm32 then 1 else 0)
  else if funct3 = ALU_OPERATION_SLTU then
    if isRegisterOp then (if rs1 < rs2 then 1 else 0)
    else (if rs1 < toU32 imm32 then 1 else 0)
  else if funct3 = ALU_OPERATION_XOR then
    if isRegisterOp then rs1 ^^^ rs2 else rs1 ^^^ toU32 imm32
  else if funct3 = ALU_OPERATION_SR then
    if isRegisterOp then
      if isAlternate then toU32 (shrI32 (toI32 rs1) (rs2 % 32))
      else rs1 >>> (rs2 % 32)
    else rs1 >>> (shamt % 32)
  else if funct3 = ALU_OPERATION_OR then
    if isRegisterOp then rs1 ||| rs2 else rs1 ||| toU32 imm32
  else if funct3 = ALU_OPERATION_AND then
    if isRegisterOp then rs1 &&& rs2 else rs1 &&& toU32 imm32
  else 0

/-- InstructionExecute::compute -/
def InstructionExecute.compute (st : InstructionExecute)
    (should_stall : Bool) (decoded : DecodedValue) : InstructionExecute :=
  if should_stall then st
  else
    let st := { st with
      instruction := st.instruction.set decoded.instruction
      raw_instruction := st.raw_instruction.set decoded.raw_instruction
      pc := st.pc.set decoded.pc
      pc_plus_4 := st.pc_plus_4.set decoded.pc_plus_4 }
    match decoded.instruction with
    | .Alu opcode funct3 shamt imm11_0 _rd rs1 rs2 imm32 =>
      { st with write_back_value := st.write_back_value.set (aluWriteBackValue opcode funct3 shamt imm11_0 rs1 rs2 imm32) }
    | .Branch funct3 _ba rs1 rs2 =>
      let branchTaken :=
        if funct3 = BRANCH_OPERATION_EQ then rs1 = rs2
        else if funct3 = BRANCH_OPERATION_NE then rs1 ≠ rs2
        else if funct3 = BRANCH_OPERATION_LT then toI32 rs1 < toI32 rs2
        else if funct3 = BRANCH_OPERATION_GE then toI32 rs1 ≥ toI32 rs2
        else if funct3 = BRANCH_OPERATION_LTU then rs1 < rs2
        else if funct3 = BRANCH_OPERATION_GEU then rs1 ≥ rs2
        else False
      let st :=
        if ¬ branchTaken then
          { st with instruction := st.instruction.set (.Branch funct3 decoded.pc_plus_4 rs1 rs2) }
        else st
      { st with write_back_value := st.write_back_value.set 0 }
    | _ => { st with write_back_value := st.write_back_value.set 0 }

/-- InstructionExecute::latch_next -/
def InstructionExecute.latchNext (st : InstructionExecute) :
    InstructionExecute where
  write_back_value := st.write_back_value.latchNext
  instruction := st.instruction.latchNext
  raw_instruction := st.raw_instruction.latchNext
  pc := st.pc.latchNext
  pc_plus_4 := st.pc_plus_4.latchNext

/-- Stage reset for Execute. -/
def InstructionExecute.reset (st : InstructionExecute) : InstructionExecute
    where
  write_back_value := st.write_back_value.reset
  instruction := st.instruction.reset
  raw_instruction := st.raw_instruction.reset
  pc := st.pc.reset
  pc_plus_4 := st.pc_plus_4.reset

/- ===== src/pipeline/memory_access.rs ===== -/

def WIDTH_BYTE : Nat := 0b000
def WIDTH_HALF : Nat := 0b001
def WIDTH_WORD : Nat := 0b010

/-- MemoryAccessValue: the Memory stage output record consumed by lib.rs;
the stage's trap callback is carried here as a latched trap_params field. -/
structure MemoryAccessValue where
  write_back_value : Nat
  pc : Nat
  pc_plus_4 : Nat
  instruction : DecodedInstruction
  raw_instruction : Nat
  trap_params : PipelineTrapParams
deriving DecidableEq, Repr

/-- InstructionMemoryAccess stage latches. -/
structure InstructionMemoryAccess where
  write_back_value : LatchValue Nat
  pc : LatchValue Nat
  pc_plus_4 : LatchValue Nat
  instruction : LatchValue DecodedInstruction
  raw_instruction : LatchValue Nat
  trap_params : LatchValue PipelineTrapParams
deriving DecidableEq, Repr

/-- InstructionMemoryAccess::new -/
def InstructionMemoryAccess.new : InstructionMemoryAccess where
  write_back_value := LatchValue.new 0
  pc := LatchValue.new 0
  pc_plus_4 := LatchValue.new 0
  instruction := LatchValue.new DecodedInstruction.None
  raw_instruction := LatchValue.new 0
  trap_params := LatchValue.new PipelineTrapParams.default

/-- InstructionMemoryAccess::get_memory_access_value_out -/
def InstructionMemoryAccess.get_memory_access_value_out
    (st : InstructionMemoryAccess) : MemoryAccessValue :=
  ⟨st.write_back_value.get, st.pc.get, st.pc_plus_4.get, st.instruction.get,
    st.raw_instruction.get, st.trap_params.get⟩

/-- InstructionMemoryAccess::compute.  Returns the new stage state, the new
bus and the new CSR file; none models the panics of the source (invalid
funct3, non-alignment bus errors, CSR read or write panics).  The source's
trap callback invocation, with arguments pc_plus_4, mcause and the raw
instruction, becomes a set of the trap_params latch. -/
def InstructionMemoryAccess.compute (st : InstructionMemoryAccess)
    (should_stall : Bool) (executionValue : ExecutionValue)
    (bus : SystemInterface) (csr : CSRInterface) :
    Option (InstructionMemoryAccess × SystemInterface × CSRInterface) :=
  if should_stall then some (st, bus, csr)
  else
    let st := { st with
      instruction := st.instruction.set executionValue.instruction
      pc := st.pc.set executionValue.pc
      pc_plus_4 := st.pc_plus_4.set executionValue.pc_plus_4
      raw_instruction := st.raw_instruction.set executionValue.raw_instruction
      trap_params := st.trap_params.set PipelineTrapParams.default }
    match executionValue.instruction with
    | .Alu _ _ _ _ _ _ _ _ =>
      some ({ st with write_back_value :=
        st.write_back_value.set executionValue.write_back_value }, bus, csr)
    | .Load funct3 _rd rs1 imm32 =>
      let addr := toU32 (imm32 + toI32 rs1)
      let shouldSignExtend := funct3 &&& 0b100 = 0
      let width := funct3 &&& 0b011
      let result : Except MMIOError Nat :=
        if width = WIDTH_BYTE then
          (bus.read_byte addr).map (fun v =>
            if shouldSignExtend then toU32 (sign_extend_32 8 (Int.ofNat v)) else v)
        else if width = WIDTH_HALF then
          (bus.read_half_word addr).map (fun v =>
            if shouldSignExtend then toU32 (sign_extend_32 16 (Int.ofNat v)) else v)
        else if width = WIDTH_WORD then bus.read_word addr
        else .error (.unalignedRead 0)
      if (funct3 &&& 0b011 = WIDTH_BYTE) ∨ (funct3 &&& 0b011 = WIDTH_HALF)
          ∨ (funct3 &&& 0b011 = WIDTH_WORD) then
        match result with
        | .ok value =>
          some ({ st with write_back_value :=
            st.write_back_value.set value }, bus, csr)
        | .error (.unalignedRead _) =>
          some ({ st with trap_params := st.trap_params.set ⟨executionValue.pc_plus_4, MCAUSE_LOAD_ADDRESS_MISALIGNED, executionValue.raw_instruction, true⟩ }, bus, csr)
        | .error _ => none
      else none
    | .Store funct3 rs1 rs2 imm32 =>
      let addr := toU32 (imm32 + toI32 rs1)
      let result : Except MMIOError SystemInterface :=
        if funct3 = WIDTH_BYTE then bus.write_byte addr (rs2 % 256)
        else if funct3 = WIDTH_HALF then bus.write_half_word addr (rs2 % 65536)
        else if funct3 = WIDTH_WORD then bus.write_word addr rs2
        else .error (.unalignedWrite 0 0)
      if funct3 = WIDTH_BYTE ∨ funct3 = WIDTH_HALF ∨ funct3 = WIDTH_WORD then
        match result with
        | .ok bus2 => some (st, bus2, csr)
        | .error (.unalignedWrite _ _) =>
          some ({ st with trap_params := st.trap_params.set ⟨executionValue.pc_plus_4, MCAUSE_LOAD_ADDRESS_MISALIGNED, executionValue.raw_instruction, true⟩ }, bus, csr)
        | .error _ => none
      else none
    | .Lui _rd imm32 =>
      some ({ st with write_back_value := st.write_back_value.set imm32 },
        bus, csr)
    | .Jal _ _ =>
      some ({ st with write_back_value :=
        st.write_back_value.set executionValue.pc_plus_4 }, bus, csr)
    | .Branch _ _ _ _ =>
      some ({ st with write_back_value := st.write_back_value.set 0 },
        bus, csr)
    | .System funct3 csrAddress _rd source shouldWrite shouldRead =>
      match (if shouldRead then csr.read csrAddress else some 0) with
      | none => none
      | some csrValue =>
        let st := { st with write_back_value :=
          st.write_back_value.set csrValue }
        if shouldWrite then
          let op := funct3 &&& 0b11
          if op = CSR_OPERATION_RW then
            (csr.write csrAddress source).map (fun c => (st, bus, c))
          else if op = CSR_OPERATION_RS then
            (csr.write csrAddress (csrValue ||| source)).map
              (fun c => (st, bus, c))
          else if op = CSR_OPERATION_RC then
            (csr.write csrAddress
              (csrValue &&& (0xFFFFFFFF ^^^ (source % U32MOD)))).map
              (fun c => (st, bus, c))
          else some (st, bus, csr)
        else some (st, bus, csr)
    | .Auipc _rd imm32 =>
      some ({ st with write_back_value :=
        st.write_back_value.set (add32 executionValue.pc imm32) }, bus, csr)
    | .None =>
      some ({ st with write_back_value := st.write_back_value.set 0 },
        bus, csr)

/-- InstructionMemoryAccess::latch_next -/
def InstructionMemoryAccess.latchNext (st : InstructionMemoryAccess) :
    InstructionMemoryAccess where
  write_back_value := st.write_back_value.latchNext
  pc := st.pc.latchNext
  pc_plus_4 := st.pc_plus_4.latchNext
  instruction := st.instruction.latchNext
  raw_instruction := st.raw_instruction.latchNext
  trap_params := st.trap_params.latchNext

/-- Stage reset for Memory access. -/
def InstructionMemoryAccess.reset (st : InstructionMemoryAccess) :
    InstructionMemoryAccess where
  write_back_value := st.write_back_value.reset
  pc := st.pc.reset
  pc_plus_4 := st.pc_plus_4.reset
  instruction := st.instruction.reset
  raw_instruction := st.raw_instruction.reset
  trap_params := st.trap_params.reset

/- ===== src/pipeline/write_back.rs ===== -/

/-- Pointwise register-file update used by the Writeback stage. -/
def setReg (regs : Nat → Nat) (i v : Nat) : Nat → Nat :=
  fun j => if j = i then v else regs j

/-- InstructionWriteBack::compute from write_back.rs.  The source match
covers only the Alu, Store, Load and None variants (it predates the other
instruction classes); the remaining variants therefore perform no register
write here. -/
def writeBackCompute (should_stall : Bool)
    (memoryAccessValue : MemoryAccessValue) (reg_file : Nat → Nat) :
    Nat → Nat :=
  if should_stall then reg_file
  else
    match memoryAccessValue.instruction with
    | .Alu _ _ _ _ rd _ _ _ =>
      setReg reg_file rd memoryAccessValue.write_back_value
    | .Store _ _ _ _ => reg_file
    | .Load _ rd _ _ =>
      setReg reg_file rd memoryAccessValue.write_back_value
    | .None => reg_file
    | _ => reg_file

/- ===== src/trap/mod.rs state machine ===== -/

/-- TrapInterface latches. -/
structure TrapInterface where
  state : LatchValue TrapState
  mepc : LatchValue Nat
  mcause : LatchValue Nat
  mtval : LatchValue Nat
  return_to_pipeline_mode : LatchValue Bool
  set_pc : LatchValue Bool
  pc_to_set : LatchValue Nat
  flush : LatchValue Bool
deriving DecidableEq, Repr

/-- TrapInterface::new -/
def TrapInterface.new : TrapInterface where
  state := LatchValue.new TrapState.Idle
  mepc := LatchValue.new 0
  mcause := LatchValue.new 0
  mtval := LatchValue.new 0
  return_to_pipeline_mode := LatchValue.new false
  set_pc := LatchValue.new false
  pc_to_set := LatchValue.new 0
  flush := LatchValue.new false

/-- TrapInterface::compute: returns the new trap state and the new CSR file
(the SetCSRJump and ReturnFromTrap arms write CSR registers directly). -/
def TrapInterface.compute (t : TrapInterface) (csr : CSRInterface)
    (begin_trap begin_trap_return : Bool) : TrapInterface × CSRInterface :=
  if begin_trap then
    ({ t with
        state := t.state.set TrapState.SetCSRJump
        flush := t.flush.set true }, csr)
  else if begin_trap_return then
    ({ t with
        state := t.state.set TrapState.ReturnFromTrap
        flush := t.flush.set false }, csr)
  else
    match t.state.get with
    | TrapState.Idle =>
      ({ t with
          return_to_pipeline_mode := t.return_to_pipeline_mode.set false
          set_pc := t.set_pc.set false
          flush := t.flush.set false }, csr)
    | TrapState.SetCSRJump =>
      let mcause := t.mcause.get
      let csr := { csr with
        mepc := t.mepc.get
        mcause := mcause
        mtval := t.mtval.get }
      let mie := (csr.mstatus &&& MSTATUS_MIE_MASK) >>> MSTATUS_MIE_BIT
      let csr := { csr with mstatus :=
        csr.mstatus &&& (0xFFFFFFFF ^^^ MSTATUS_MPIE_MASK) }
      let csr := { csr with mstatus :=
        csr.mstatus ||| (mie <<< MSTATUS_MPIE_BIT) }
      let csr := { csr with mstatus :=
        csr.mstatus &&& (0xFFFFFFFF ^^^ MSTATUS_MIE_MASK) }
      let index := mcause &&& 0x7FFFFFFF
      let isInterrupt := mcause &&& 0x80000000 ≠ 0
      let offset := if isInterrupt then 0 else 48
      ({ t with
          pc_to_set := t.pc_to_set.set
            (add32 (csr.mtvec &&& 0xFFFFFFFC) (offset + ((index <<< 2) % U32MOD)))
          set_pc := t.set_pc.set true
          return_to_pipeline_mode := t.return_to_pipeline_mode.set true
          state := t.state.set TrapState.Idle
          flush := t.flush.set false }, csr)
    | TrapState.SetPc =>
      ({ t with
          set_pc := t.set_pc.set true
          return_to_pipeline_mode := t.return_to_pipeline_mode.set true
          state := t.state.set TrapState.Idle
          flush := t.flush.set false }, csr)
    | TrapState.ReturnFromTrap =>
      let t2 := { t with
        pc_to_set := t.pc_to_set.set csr.mepc
        state := t.state.set TrapState.SetPc
        flush := t.flush.set false }
      let mpie := (csr.mstatus &&& MSTATUS_MPIE_MASK) >>> MSTATUS_MPIE_BIT
      let csr := { csr with mstatus :=
        csr.mstatus &&& (0xFFFFFFFF ^^^ MSTATUS_MIE_MASK) }
      let csr := { csr with mstatus :=
        csr.mstatus ||| (mpie <<< MSTATUS_MIE_BIT) }
      let csr := { csr with mstatus :=
        csr.mstatus &&& (0xFFFFFFFF ^^^ MSTATUS_MPIE_MASK) }
      (t2, csr)

/-- TrapInterface::latch_next -/
def TrapInterface.latchNext (t : TrapInterface) : TrapInterface where
  state := t.state.latchNext
  mepc := t.mepc.latchNext
  mcause := t.mcause.latchNext
  mtval := t.mtval.latchNext
  return_to_pipeline_mode := t.return_to_pipeline_mode.latchNext
  set_pc := t.set_pc.latchNext
  pc_to_set := t.pc_to_set.latchNext
  flush := t.flush.latchNext

/- ===== src/lib.rs ===== -/

inductive PipelineState where
  | Fetch
  | Decode
  | Execute
  | MemoryAccess
  | WriteBack
deriving DecidableEq, Repr

inductive CPUState where
  | Pipeline (ps : PipelineState)
  | Trap
deriving DecidableEq, Repr

/-- RV32ISystem: the top-level machine state from src/lib.rs.  The register
file is a function from register index to u32 value (the source array is
total on indices 0 to 31, which is the only range ever used). -/
structure RV32ISystem where
  bus : SystemInterface
  csr : CSRInterface
  trap : TrapInterface
  state : LatchValue CPUState
  reg_file : Nat → Nat
  trap_stall : Bool
  mret : Bool
  stage_if : InstructionFetch
  stage_de : InstructionDecode
  stage_ex : InstructionExecute
  stage_ma : InstructionMemoryAccess

/-- RV32ISystem::new -/
def RV32ISystem.new : RV32ISystem where
  bus := SystemInterface.new RomDevice.new RamDevice.new
  csr := CSRInterface.new
  trap := TrapInterface.new
  state := LatchValue.new (CPUState.Pipeline PipelineState.Fetch)
  reg_file := fun _ => 0
  trap_stall := false
  mret := false
  stage_if := InstructionFetch.new
  stage_de := InstructionDecode.new
  stage_ex := InstructionExecute.new
  stage_ma := InstructionMemoryAccess.new

/-- True when a CPUState is one of the Pipeline phases (the Rust
matches-Pipeline test). -/
def CPUState.isPipeline : CPUState → Bool
  | .Pipeline _ => true
  | .Trap => false

/-- The phase successor the bottom of RV32ISystem::compute applies on a
non-stalled tick (the WriteBack arm additionally increments instret, handled
at the call site). -/
def PipelineState.nextPhase : PipelineState → PipelineState
  | .Fetch => .Decode
  | .Decode => .Execute
  | .Execute => .MemoryAccess
  | .MemoryAccess => .WriteBack
  | .WriteBack => .Fetch

/-- Lines 98 to 112 of lib.rs RV32ISystem::compute: trap entry (switch a
pipeline phase to Trap, loading the trap parameters) or trap exit (return to
Pipeline(Fetch), optionally overwriting the Fetch pc latches). -/
def RV32ISystem.computeTrapEntry (s : RV32ISystem) (trapStall : Bool)
    (trapParams : Option PipelineTrapParams) : RV32ISystem :=
  if trapStall && (s.state.get).isPipeline then
    let s1 := { s with state := s.state.set CPUState.Trap }
    match trapParams with
    | some tp =>
      { s1 with trap := { s1.trap with
          mcause := s1.trap.mcause.set tp.mcause
          mepc := s1.trap.mepc.set tp.mepc
          mtval := s1.trap.mtval.set tp.mtval } }
    | none => s1
  else if decide (s.state.get = CPUState.Trap) &&
      s.trap.return_to_pipeline_mode.get then
    let s1 := { s with
      state := s.state.set (CPUState.Pipeline PipelineState.Fetch) }
    if s1.trap.set_pc.get then
      { s1 with stage_if := { s1.stage_if with
          pc := s1.stage_if.pc.set s1.trap.pc_to_set.get
          pc_plus_4 := s1.stage_if.pc_plus_4.set s1.trap.pc_to_set.get } }
    else s1
  else s

/-- Lines 114 to 116 of lib.rs RV32ISystem::compute: an MRET seen by Decode
also moves a pipeline phase to Trap. -/
def RV32ISystem.computeMretEntry (s : RV32ISystem) (mret : Bool) :
    RV32ISystem :=
  if (s.state.get).isPipeline && mret then
    { s with state := s.state.set CPUState.Trap }
  else s

/-- Lines 118 to 124 of lib.rs RV32ISystem::compute: when the trap controller
raised flush, reset every pipeline stage before the stage computes run. -/
def RV32ISystem.computeFlush (s : RV32ISystem) : RV32ISystem :=
  if s.trap.flush.get then
    { s with
      stage_if := s.stage_if.reset
      stage_de := s.stage_de.reset
      stage_ex := s.stage_ex.reset
      stage_ma := s.stage_ma.reset }
  else s

/-- Lines 168 to 188 of lib.rs RV32ISystem::compute: advance the pipeline
phase when not stalled, incrementing instret on the WriteBack to Fetch
transition. -/
def RV32ISystem.computeAdvancePhase (s : RV32ISystem) (trapStall : Bool) :
    RV32ISystem :=
  if trapStall = false then
    match s.state.get with
    | CPUState.Pipeline PipelineState.WriteBack =>
      { s with
        csr := { s.csr with
          instret := s.csr.instret.set (s.csr.instret.get + 1) }
        state := s.state.set (CPUState.Pipeline PipelineState.Fetch) }
    | CPUState.Pipeline ps =>
      { s with state := s.state.set (CPUState.Pipeline ps.nextPhase) }
    | CPUState.Trap => { s with state := s.state.set s.state.get }
  else s

/-- RV32ISystem::compute, translated statement by statement from lib.rs
(the four phase helpers above carry the statement blocks in source order).
Returns none when any component panics.  Stage computes read only latched
values of other stages (every set touches shadow slots only), so threading
the record through in source order is faithful. -/
def RV32ISystem.compute (s : RV32ISystem) : Option RV32ISystem :=
  let decValues := s.stage_de.get_decoded_instruction_out
  let memValues := s.stage_ma.get_memory_access_value_out
  let mret := decValues.return_from_trap
  -- prefer traps later in the pipeline
  let trapParams : Option PipelineTrapParams :=
    if memValues.trap_params.trap then some memValues.trap_params
    else if decValues.trap_params.trap then some decValues.trap_params
    else none
  let trapStall : Bool :=
    decide (s.state.get = CPUState.Trap) || trapParams.isSome || mret
  let s := { s with trap_stall := trapStall, mret := mret }
  let s := s.computeTrapEntry trapStall trapParams
  let s := s.computeMretEntry mret
  let s := s.computeFlush
  let branchAddress : Option Nat :=
    match (s.stage_ex.get_execution_value_out).instruction with
    | .Jal _rd ba => some ba
    | .Branch _f ba _r1 _r2 => some ba
    | _ => none
  match s.stage_if.compute
      (trapStall || decide (s.state.get ≠ CPUState.Pipeline PipelineState.Fetch))
      branchAddress s.bus with
  | none => none
  | some stIF =>
    let s := { s with stage_if := stIF }
    let de2 := s.stage_de.compute
      (trapStall || decide (s.state.get ≠ CPUState.Pipeline PipelineState.Decode))
      s.stage_if.get_instruction_value_out s.reg_file
    let s := { s with stage_de := de2 }
    let ex2 := s.stage_ex.compute
      (trapStall || decide (s.state.get ≠ CPUState.Pipeline PipelineState.Execute))
      s.stage_de.get_decoded_instruction_out
    let s := { s with stage_ex := ex2 }
    match s.stage_ma.compute
        (trapStall || decide (s.state.get ≠ CPUState.Pipeline PipelineState.MemoryAccess))
        s.stage_ex.get_execution_value_out s.bus s.csr with
    | none => none
    | some (stMA, bus2, csr2) =>
      let s := { s with stage_ma := stMA, bus := bus2, csr := csr2 }
      let rf2 := writeBackCompute
        (trapStall || decide (s.state.get ≠ CPUState.Pipeline PipelineState.WriteBack))
        s.stage_ma.get_memory_access_value_out s.reg_file
      let s := { s with reg_file := rf2 }
      let s := { s with csr := s.csr.compute }
      let tc := s.trap.compute s.csr
        ((s.stage_de.get_decoded_instruction_out).trap_params.trap ||
          (s.stage_ma.get_memory_access_value_out).trap_params.trap)
        (s.stage_de.get_decoded_instruction_out).return_from_trap
      let s := { s with trap := tc.1, csr := tc.2 }
      some (s.computeAdvancePhase trapStall)

/-- RV32ISystem::latch_next -/
def RV32ISystem.latchNext (s : RV32ISystem) : RV32ISystem :=
  { s with
    stage_if := s.stage_if.latchNext
    stage_de := s.stage_de.latchNext
    stage_ex := s.stage_ex.latchNext
    stage_ma := s.stage_ma.latchNext
    csr := s.csr.latchNext
    trap := s.trap.latchNext
    state := s.state.latchNext }

/-- RV32ISystem::cycle: compute then latch_next (none when compute
panicked). -/
def RV32ISystem.cycle (s : RV32ISystem) : Option RV32ISystem :=
  match s.compute with
  | none => none
  | some s2 => some s2.latchNext

/-- Iterated cycles. -/
def RV32ISystem.runCycles (s : RV32ISystem) : Nat → Option RV32ISystem
  | 0 => some s
  | n + 1 =>
    match s.cycle with
    | none => none
    | some s2 => s2.runCycles n

/- ===== Scenario systems and run predicates ===== -/

/-- No pipeline stage is signalling a trap or MRET on its latched output
(the inputs from which RV32ISystem::compute builds trap_stall, besides the
Trap state itself). -/
def noTrapSignals (s : RV32ISystem) : Bool :=
  !(s.stage_ma.get_memory_access_value_out).trap_params.trap &&
  !(s.stage_de.get_decoded_instruction_out).trap_params.trap &&
  !(s.stage_de.get_decoded_instruction_out).return_from_trap

/-- The instret latch is settled (shadow equals visible slot).  This holds
after every latch_next, hence at every tick boundary. -/
def instretSettled (s : RV32ISystem) : Prop :=
  s.csr.instret.next = s.csr.instret.value

/-- Scenario S5 of the specification: reg_file[2] = 0x2000_0000 and the
single instruction LW rd=14, rs1=2, imm=1 at the ROM base. -/
def s5System : RV32ISystem :=
  let s := RV32ISystem.new
  let s := { s with reg_file := fun i => if i = 2 then 0x20000000 else 0 }
  { s with bus := { s.bus with
      rom := s.bus.rom.load [0b00000000000100010010011100000011] } }

/- ===== Helper lemmas ===== -/

theorem LatchValue.applySets_value {T : Type} (vs : List T)
    (l : LatchValue T) : (l.applySets vs).value = l.value := by
  induction vs generalizing l with
  | nil => rfl
  | cons v vs ih => exact ih (l.set v)

theorem LatchValue.applySets_default {T : Type} (vs : List T)
    (l : LatchValue T) : (l.applySets vs).default = l.default := by
  induction vs generalizing l with
  | nil => rfl
  | cons v vs ih => exact ih (l.set v)

theorem LatchValue.applySets_append_one {T : Type} (vs : List T) (v : T)
    (l : LatchValue T) : l.applySets (vs ++ [v]) = (l.applySets vs).set v := by
  induction vs generalizing l with
  | nil => rfl
  | cons w ws ih => exact ih ((l.set w))

/-- C1.  Latch cell two-phase invariant: set calls during a compute phase
never change the value seen through get; after latch_next the value seen is
the last value passed to set; every operation preserves the constructor
default, and reset restores both the visible and the shadow slot to it. -/
theorem latch_two_phase_invariant {T : Type} (l : LatchValue T)
    (vs : List T) (v d : T) :
    (l.applySets vs).get = l.get
    ∧ ((l.applySets (vs ++ [v])).latchNext).get = v
    ∧ (l.applySets vs).default = l.default
    ∧ (l.latchNext).default = l.default
    ∧ (LatchValue.new d).default = d
    ∧ (l.reset).get = l.default ∧ (l.reset).next = l.default := by
  refine ⟨?_, ?_, ?_, rfl, rfl, rfl, rfl⟩
  · exact LatchValue.applySets_value vs l
  · rw [LatchValue.applySets_append_one]; rfl
  · exact LatchValue.applySets_default vs l

/-- C10.  When the trap controller's compute sees begin_trap and
begin_trap_return asserted together, the trap wins for every current FSM
state: the controller moves to SetCSRJump and raises flush, it never enters
ReturnFromTrap, and the CSR file is untouched on that path. -/
theorem trap_request_beats_mret (t : TrapInterface) (csr : CSRInterface) :
    ((t.compute csr true true).1.state.next = TrapState.SetCSRJump)
    ∧ ((t.compute csr true true).1.flush.next = true)
    ∧ (((t.compute csr true true).1.latchNext).state.get
        = TrapState.SetCSRJump)
    ∧ (((t.compute csr true true).1.latchNext).state.get
        ≠ TrapState.ReturnFromTrap)
    ∧ ((t.compute csr true true).2 = csr) := by
  refine ⟨rfl, rfl, rfl, ?_, rfl⟩
  intro h
  simp [TrapInterface.compute, TrapInterface.latchNext, LatchValue.latchNext,
    LatchValue.set, LatchValue.get] at h

/-- C4.  Evaluation of the Execute stage at the inputs where its Alu arm
departs from the specified funct3 table.  First: the I-type shift with
funct3 = 101 and the alternate bit (imm bit 10) set, rs1 = 0x80000000 and
shamt = 4, produces the logical shift result 0x08000000 where the claimed
arithmetic (sign-extending) shift would give 0xF8000000.  Second: ADDI with
rs1 = 0x7FFFFFFF and imm = 1 produces the saturated value 0x7FFFFFFF where
the claimed wrapping semantics would give 0x80000000.  The register SRA arm
does sign-extend, confirming the divergence is specific to the I-type
arm. -/
theorem execute_alu_divergences :
    ((InstructionExecute.new.compute false
      ⟨DecodedInstruction.Alu 0b0010011 0b101 4 0x404 14 0x80000000 0 0x404,
        0, 0, 0, false, PipelineTrapParams.default⟩).write_back_value.next
      = 0x08000000)
    ∧ (0x08000000 : Nat) ≠ 0xF8000000
    ∧ ((InstructionExecute.new.compute false
      ⟨DecodedInstruction.Alu 0b0010011 0b000 1 1 3 0x7FFFFFFF 0 1,
        0, 0, 0, false, PipelineTrapParams.default⟩).write_back_value.next
      = 0x7FFFFFFF)
    ∧ (0x7FFFFFFF : Nat) ≠ 0x80000000
    ∧ ((InstructionExecute.new.compute false
      ⟨DecodedInstruction.Alu 0b0110011 0b101 0 0x401 12 0x80000000 1 0x401,
        0, 0, 0, false, PipelineTrapParams.default⟩).write_back_value.next
      = 0xC0000000) := by
  refine ⟨by decide, by decide, by decide, by decide, by decide⟩

/-- C5.  Evaluation of the Writeback stage of write_back.rs at the inputs
where it departs from the claim: a retiring Lui with rd = 1 and write-back
value 0xAAAAA000 writes nothing (the source match has no Lui arm), and a
retiring Alu with rd = 0 writes the register-file slot 0 (the source has no
rd nonzero guard). -/
theorem write_back_divergences :
    ((writeBackCompute false
      ⟨0xAAAAA000, 0x10000000, 0x10000004, DecodedInstruction.Lui 1 0xAAAAA000,
        0, PipelineTrapParams.default⟩ (fun _ => 0)) 1 = 0)
    ∧ (0 : Nat) ≠ 0xAAAAA000
    ∧ ((writeBackCompute false
      ⟨5, 0, 0, DecodedInstruction.Alu 0b0010011 0 0 0 0 0 0 0,
        0, PipelineTrapParams.default⟩ (fun _ => 0)) 0 = 5)
    ∧ (5 : Nat) ≠ 0 := by
  refine ⟨rfl, by decide, rfl, by decide⟩

/-- C6.  Evaluation of Decode at a JALR instruction (opcode 1100111) with
rs1 field 1, immediate 0 and reg_file[1] = 3: the emitted Jal carries
branch_address 3 (an odd address, bit 0 not cleared), while the claimed
formula rs1 plus the sign-extended immediate with the low bit cleared gives
2.  The second conjunct evaluates that claimed formula inside the embedding;
the raw instruction word 0x8067 encodes JALR rd=0, rs1=1, imm=0. -/
theorem decode_jalr_divergence :
    ((InstructionDecode.new.compute false ⟨0x10000000, 0x10000004, 0x8067⟩
        (fun i => if i = 1 then 3 else 0)).instruction.next
      = DecodedInstruction.Jal 0 3)
    ∧ (((3 + toU32 (sign_extend_32 12 0)) % U32MOD) &&& 0xFFFFFFFE) = 2
    ∧ (3 : Nat) ≠ 2 := by
  refine ⟨by decide, by decide, by decide⟩

/-- C7.  Evaluation of the CSR write path at the inputs where it departs
from the claim.  Address 0x400 has top two bits 01 (not 11), yet the write
panics, because the source tests address shifted right by 10 against zero
rather than against 0b11.  A write to mtvec (0x305) is accepted but leaves
the whole CSR file unchanged (the write match has no mtvec arm), so the
subsequent read still returns the reset value 0x10000004 rather than the
value written. -/
theorem csr_write_divergences :
    (CSRInterface.new.write 0x400 0 = none)
    ∧ ((0x400 >>> 10) &&& 0b11) ≠ 0b11
    ∧ (CSRInterface.new.write 0x305 5 = some CSRInterface.new)
    ∧ (CSRInterface.new.read 0x305 = some 0x10000004)
    ∧ (0x10000004 : Nat) ≠ 5 := by
  refine ⟨by decide, by decide, by decide, by decide, by decide⟩

/-- C3 counterexample.  In scenario S5 the Memory stage runs during the
fourth tick (after three ticks the controller phase is MemoryAccess); after
that tick the controller state is Pipeline(WriteBack), not Trap, although
the Memory stage output now carries the misaligned-load trap request.  The
state reaches Trap only one tick later. -/
theorem s5_trap_not_after_memory_tick :
    ((s5System.runCycles 3).map (fun s => s.state.get)
      = some (CPUState.Pipeline PipelineState.MemoryAccess))
    ∧ ((s5System.runCycles 4).map (fun s => s.state.get)
      = some (CPUState.Pipeline PipelineState.WriteBack))
    ∧ ((s5System.runCycles 4).map
        (fun s => (s.stage_ma.get_memory_access_value_out).trap_params)
      = some ⟨0x10000004, MCAUSE_LOAD_ADDRESS_MISALIGNED, 0x112703, true⟩)
    ∧ CPUState.Pipeline PipelineState.WriteBack ≠ CPUState.Trap := by
  refine ⟨by decide, by decide, by decide, by decide⟩

/-- C3 as amended.  Scenario S5 with the trap entry observed one tick after
the Memory tick: after five ticks the state is Trap; after six ticks the
trap has committed mcause = 4 (LOAD_ADDRESS_MISALIGNED), mepc = 0x10000004
and mtval = the raw instruction word 0x112703 into the CSR file; after the
redirect tick Fetch's pc latch holds (mtvec masked with 0xFFFFFFFC) + 48 +
(4 shifted left 2) = mtvec base + 64 = 0x10000044, and the machine is back
in Pipeline(Fetch). -/
theorem s5_misaligned_load_trap :
    ((s5System.runCycles 5).map (fun s => s.state.get) = some CPUState.Trap)
    ∧ ((s5System.runCycles 6).map
        (fun s => (s.csr.mcause, s.csr.mepc, s.csr.mtval))
      = some (MCAUSE_LOAD_ADDRESS_MISALIGNED, 0x10000004, 0x112703))
    ∧ ((s5System.runCycles 7).map
        (fun s => (s.state.get, s.stage_if.pc.get))
      = some (CPUState.Pipeline PipelineState.Fetch, 0x10000044))
    ∧ (s5System.csr.mtvec &&& 0xFFFFFFFC) + 48 + (4 <<< 2) = 0x10000044 := by
  refine ⟨by decide, by decide, by decide, by decide⟩

/- ===== Bitwise helper lemmas for the memory claims ===== -/

theorem nat_land_lor_right (a b c : Nat) :
    (a ||| b) &&& c = (a &&& c) ||| (b &&& c) := by
  apply Nat.eq_of_testBit_eq
  intro i
  simp only [Nat.testBit_land, Nat.testBit_lor]
  cases a.testBit i <;> cases b.testBit i <;> cases c.testBit i <;> rfl

theorem nat_shiftLeft_land (x y s : Nat) :
    (x <<< s) &&& (y <<< s) = (x &&& y) <<< s := by
  apply Nat.eq_of_testBit_eq
  intro i
  simp only [Nat.testBit_land, Nat.testBit_shiftLeft]
  by_cases hs : i ≥ s <;> simp [hs]

theorem nat_land_shiftRight (x m k : Nat) :
    (x &&& m) >>> k = (x >>> k) &&& (m >>> k) := by
  apply Nat.eq_of_testBit_eq
  intro i
  simp only [Nat.testBit_land, Nat.testBit_shiftRight]

theorem nat_shiftLeft_shiftRight (x s : Nat) : (x <<< s) >>> s = x := by
  rw [Nat.shiftLeft_eq, Nat.shiftRight_eq_div_pow]
  exact Nat.mul_div_cancel _ (Nat.two_pow_pos s)

theorem nat_land_two_pow_eq_zero {a n : Nat} (h : a < 2 ^ n) :
    a &&& 2 ^ n = 0 := by
  apply Nat.eq_of_testBit_eq
  intro i
  simp only [Nat.testBit_land, Nat.zero_testBit]
  rcases eq_or_ne n i with rfl | hne
  · simp [Nat.testBit_lt_two_pow h]
  · simp [Nat.testBit_two_pow, hne]

theorem nat_land_two_pow_of_testBit {a n : Nat} (h : a.testBit n = true) :
    a &&& 2 ^ n = 2 ^ n := by
  apply Nat.eq_of_testBit_eq
  intro i
  simp only [Nat.testBit_land]
  rcases eq_or_ne n i with rfl | hne
  · simp [h, Nat.testBit_two_pow]
  · simp [Nat.testBit_two_pow, hne]

/-- Reading back the lane just written: masking the merged word with the
lane mask and shifting down returns the written value. -/
theorem lane_extract (cur v s w keep : Nat) (hv : v < 2 ^ w)
    (h1 : keep &&& ((2 ^ w - 1) <<< s) = 0) :
    (((cur &&& keep) ||| (v <<< s)) &&& ((2 ^ w - 1) <<< s)) >>> s = v := by
  have hv' : v &&& (2 ^ w - 1) = v :=
    Nat.and_pow_two_sub_one_of_lt_two_pow hv
  rw [nat_land_lor_right, Nat.land_assoc, h1, Nat.and_zero,
    nat_shiftLeft_land, hv', Nat.zero_or, nat_shiftLeft_shiftRight]

/-- Reading a lane the write did not touch: masking the merged word with a
disjoint lane mask sees the original word. -/
theorem lane_preserve (cur v s w keep m : Nat) (hv : v < 2 ^ w)
    (h1 : keep &&& m = m) (h2 : ((2 ^ w - 1) <<< s) &&& m = 0) :
    ((cur &&& keep) ||| (v <<< s)) &&& m = cur &&& m := by
  have hv' : v &&& (2 ^ w - 1) = v :=
    Nat.and_pow_two_sub_one_of_lt_two_pow hv
  have h2' : (v <<< s) &&& m = 0 := by
    calc (v <<< s) &&& m = ((v &&& (2 ^ w - 1)) <<< s) &&& m := by rw [hv']
      _ = ((v <<< s) &&& ((2 ^ w - 1) <<< s)) &&& m := by
          rw [nat_shiftLeft_land]
      _ = (v <<< s) &&& (((2 ^ w - 1) <<< s) &&& m) := Nat.land_assoc _ _ _
      _ = 0 := by rw [h2, Nat.and_zero]
  rw [nat_land_lor_right, Nat.land_assoc, h1, h2', Nat.or_zero]

/-- An address at most 0x1FFFFFFF (in particular any ROM-region address)
fails the bus RAM-region test. -/
theorem rom_region_not_ram {a : Nat} (h : a ≤ 0x1FFFFFFF) :
    a &&& RAM_START ≠ RAM_START := by
  have h29 : (RAM_START : Nat) = 2 ^ 29 := by norm_num [RAM_START]
  have hz : a &&& RAM_START = 0 := by
    rw [h29]
    exact nat_land_two_pow_eq_zero (by omega)
  rw [hz, h29]
  positivity

/-- C8 counterexample.  A misaligned write addressed to the ROM region does
raise UnalignedWrite: the bus checks alignment before region dispatch, so
the claim's carve-out for ROM writes fails (this is also what the repo's
own test_error_on_misaligned_write asserts). -/
theorem rom_misaligned_write_raises :
    ((SystemInterface.new RomDevice.new RamDevice.new).write_word
        0x10000005 0xDEADBEEF
      = .error (.unalignedWrite 0x10000005 0xDEADBEEF))
    ∧ (0x10000005 &&& PROGRAM_ROM_START = PROGRAM_ROM_START)
    ∧ ((0x10000005 : Nat) ≤ 0x1FFFFFFF) := by
  refine ⟨rfl, by decide, by decide⟩

/-- C8 as amended.  For every bus state, every address and every value:
misaligned word accesses fail with UnalignedRead / UnalignedWrite and
misaligned half-word accesses likewise, in every region; byte access never
fails; and write attempts addressed to the ROM region that pass the
alignment check never raise and leave the bus unchanged (ROM writes do
nothing). -/
theorem bus_alignment_policy (bus : SystemInterface) (a v : Nat) :
    (a &&& 0b11 ≠ 0 →
      bus.read_word a = .error (.unalignedRead a)
      ∧ bus.write_word a v = .error (.unalignedWrite a v))
    ∧ (a &&& 0b1 ≠ 0 →
      bus.read_half_word a = .error (.unalignedRead a)
      ∧ bus.write_half_word a v = .error (.unalignedWrite a v))
    ∧ (∃ r, bus.read_byte a = .ok r)
    ∧ (∃ b2, bus.write_byte a v = .ok b2)
    ∧ (PROGRAM_ROM_START ≤ a → a ≤ 0x1FFFFFFF →
      bus.write_byte a v = .ok bus
      ∧ (a &&& 0b1 = 0 → bus.write_half_word a v = .ok bus)
      ∧ (a &&& 0b11 = 0 → bus.write_word a v = .ok bus)) := by
  refine ⟨?_, ?_, ?_, ?_, ?_⟩
  · intro h
    constructor
    · rw [SystemInterface.read_word, if_pos h]
    · rw [SystemInterface.write_word, if_pos h]
  · intro h
    constructor
    · rw [SystemInterface.read_half_word, if_pos h]
    · rw [SystemInterface.write_half_word, if_pos h]
  · rw [SystemInterface.read_byte]
    split
    · exact ⟨_, rfl⟩
    · split
      · exact ⟨_, rfl⟩
      · exact ⟨_, rfl⟩
  · rw [SystemInterface.write_byte]
    split
    · exact ⟨_, rfl⟩
    · exact ⟨_, rfl⟩
  · intro _hlo hhi
    have hram := rom_region_not_ram hhi
    refine ⟨?_, ?_, ?_⟩
    · rw [SystemInterface.write_byte, if_neg hram]
    · intro hal
      rw [SystemInterface.write_half_word, if_neg (by simp [hal]),
        if_neg hram]
    · intro hal
      rw [SystemInterface.write_word, if_neg (by simp [hal]), if_neg hram]

/-- C8 witness: the amended policy applied at concrete inputs in the ROM
region. -/
theorem bus_alignment_policy_witness :
    ((SystemInterface.new RomDevice.new RamDevice.new).read_word 0x10000005
      = .error (.unalignedRead 0x10000005))
    ∧ ((SystemInterface.new RomDevice.new RamDevice.new).write_byte
        0x10000005 7 = .ok (SystemInterface.new RomDevice.new RamDevice.new))
    ∧ ((SystemInterface.new RomDevice.new RamDevice.new).write_word
        0x10000004 7 = .ok (SystemInterface.new RomDevice.new RamDevice.new))
    := by
  have h := bus_alignment_policy (SystemInterface.new RomDevice.new RamDevice.new)
  exact ⟨(h 0x10000005 7 |>.1 (by decide)).1,
    ((h 0x10000005 7 |>.2.2.2.2) (by decide) (by decide)).1,
    ((h 0x10000004 7 |>.2.2.2.2) (by decide) (by decide)).2.2 (by decide)⟩

/-- Low-lane selector rewriting: masking with a submask of 3 factors through
the low two bits. -/
theorem land_two_via_four (a : Nat) : a &&& 2 = (a % 4) &&& 2 := by
  have h32 : (3 : Nat) &&& 2 = 2 := by decide
  have h1 : a &&& 2 = (a &&& 3) &&& 2 := by
    rw [Nat.land_assoc, h32]
  have h2 : a &&& 3 = a % 4 := by
    have := Nat.and_pow_two_sub_one_eq_mod a 2
    norm_num at this
    exact this
  rw [h1, h2]

theorem land_three_eq_mod_four (a : Nat) : a &&& 3 = a % 4 := by
  have := Nat.and_pow_two_sub_one_eq_mod a 2
  norm_num at this
  exact this

/-- RamDevice byte round trip: writing a byte and reading it back at the same
address returns the byte, for every address. -/
theorem ram_byte_round_trip (r : RamDevice) (addr v : Nat)
    (hv : v < 2 ^ 8) : (r.write_byte addr v).read_byte addr = v := by
  have hmod := land_three_eq_mod_four addr
  have h4 : addr % 4 = 0 ∨ addr % 4 = 1 ∨ addr % 4 = 2 ∨ addr % 4 = 3 := by
    omega
  simp only [RamDevice.write_byte, RamDevice.read_byte, hmod]
  rcases h4 with h | h | h | h <;> rw [h] <;> simp only [if_pos rfl]
  · rw [(by decide : (0xFF000000 : Nat) = (2 ^ 8 - 1) <<< 24)]
    exact lane_extract _ v 24 8 0x00FFFFFF hv (by decide)
  · rw [(by decide : (0x00FF0000 : Nat) = (2 ^ 8 - 1) <<< 16)]
    exact lane_extract _ v 16 8 0xFF00FFFF hv (by decide)
  · rw [(by decide : (0x0000FF00 : Nat) = (2 ^ 8 - 1) <<< 8)]
    exact lane_extract _ v 8 8 0xFFFF00FF hv (by decide)
  · have := lane_extract (r.ram ((addr >>> 2) &&& RAM_MASK)) v 0 8
      0xFFFFFF00 hv (by decide)
    simp only [Nat.shiftLeft_zero, Nat.shiftRight_zero] at this
    norm_num at this ⊢
    exact this

/-- RamDevice half-word round trip. -/
theorem ram_half_round_trip (r : RamDevice) (addr v : Nat)
    (hv : v < 2 ^ 16) : (r.write_half_word addr v).read_half_word addr = v
    := by
  have hsel := land_two_via_four addr
  have h4 : addr % 4 = 0 ∨ addr % 4 = 1 ∨ addr % 4 = 2 ∨ addr % 4 = 3 := by
    omega
  simp only [RamDevice.write_half_word, RamDevice.read_half_word, hsel]
  rcases h4 with h | h | h | h <;> rw [h] <;> simp only [if_pos rfl]
  · rw [(by decide : (0xFFFF0000 : Nat) = (2 ^ 16 - 1) <<< 16)]
    exact lane_extract _ v 16 16 0x0000FFFF hv (by decide)
  · rw [(by decide : (0xFFFF0000 : Nat) = (2 ^ 16 - 1) <<< 16)]
    exact lane_extract _ v 16 16 0x0000FFFF hv (by decide)
  · have := lane_extract (r.ram ((addr >>> 2) &&& RAM_MASK)) v 0 16
      0xFFFF0000 hv (by decide)
    simp only [Nat.shiftLeft_zero, Nat.shiftRight_zero] at this
    norm_num at this ⊢
    exact this
  · have := lane_extract (r.ram ((addr >>> 2) &&& RAM_MASK)) v 0 16
      0xFFFF0000 hv (by decide)
    simp only [Nat.shiftLeft_zero, Nat.shiftRight_zero] at this
    norm_num at this ⊢
    exact this

/-- RamDevice word round trip. -/
theorem ram_word_round_trip (r : RamDevice) (addr v : Nat) :
    (r.write_word addr v).read_word addr = v := by
  simp [RamDevice.write_word, RamDevice.read_word]

/-- A byte write leaves every other lane of the containing word unchanged:
reading any address of the same word with a different low-two-bit offset
sees the original contents. -/
theorem ram_byte_write_preserves (r : RamDevice) (a a2 v : Nat)
    (hv : v < 2 ^ 8) (hsame : a2 >>> 2 = a >>> 2)
    (hdiff : a2 &&& 0b11 ≠ a &&& 0b11) :
    (r.write_byte a v).read_byte a2 = r.read_byte a2 := by
  have hmod := land_three_eq_mod_four a
  have hmod2 := land_three_eq_mod_four a2
  have h4 : a % 4 = 0 ∨ a % 4 = 1 ∨ a % 4 = 2 ∨ a % 4 = 3 := by omega
  have h42 : a2 % 4 = 0 ∨ a2 % 4 = 1 ∨ a2 % 4 = 2 ∨ a2 % 4 = 3 := by omega
  rw [hmod, hmod2] at hdiff
  simp only [RamDevice.write_byte, RamDevice.read_byte, hmod, hmod2, hsame,
    if_pos rfl]
  set cur := r.ram ((a >>> 2) &&& RAM_MASK) with hcur
  have hz : v <<< 0 = v := by simp
  rcases h4 with h | h | h | h <;> rcases h42 with h2 | h2 | h2 | h2 <;>
      rw [h, h2] <;> first
  | exact absurd (h2.trans h.symm) hdiff
  | skip
  -- write lane 0 (shift 24, keep 0x00FFFFFF), read lanes 1, 2, 3
  · exact congrArg (· >>> 16)
      (lane_preserve cur v 24 8 0x00FFFFFF 0x00FF0000 hv (by decide)
        (by decide))
  · exact congrArg (· >>> 8)
      (lane_preserve cur v 24 8 0x00FFFFFF 0x0000FF00 hv (by decide)
        (by decide))
  · exact lane_preserve cur v 24 8 0x00FFFFFF 0x000000FF hv (by decide)
      (by decide)
  -- write lane 1 (shift 16, keep 0xFF00FFFF), read lanes 0, 2, 3
  · exact congrArg (· >>> 24)
      (lane_preserve cur v 16 8 0xFF00FFFF 0xFF000000 hv (by decide)
        (by decide))
  · exact congrArg (· >>> 8)
      (lane_preserve cur v 16 8 0xFF00FFFF 0x0000FF00 hv (by decide)
        (by decide))
  · exact lane_preserve cur v 16 8 0xFF00FFFF 0x000000FF hv (by decide)
      (by decide)
  -- write lane 2 (shift 8, keep 0xFFFF00FF), read lanes 0, 1, 3
  · exact congrArg (· >>> 24)
      (lane_preserve cur v 8 8 0xFFFF00FF 0xFF000000 hv (by decide)
        (by decide))
  · exact congrArg (· >>> 16)
      (lane_preserve cur v 8 8 0xFFFF00FF 0x00FF0000 hv (by decide)
        (by decide))
  · exact lane_preserve cur v 8 8 0xFFFF00FF 0x000000FF hv (by decide)
      (by decide)
  -- write lane 3 (shift 0, keep 0xFFFFFF00), read lanes 0, 1, 2
  · have hp := lane_preserve cur v 0 8 0xFFFFFF00 0xFF000000 hv (by decide)
      (by decide)
    rw [hz] at hp
    exact congrArg (· >>> 24) hp
  · have hp := lane_preserve cur v 0 8 0xFFFFFF00 0x00FF0000 hv (by decide)
      (by decide)
    rw [hz] at hp
    exact congrArg (· >>> 16) hp
  · have hp := lane_preserve cur v 0 8 0xFFFFFF00 0x0000FF00 hv (by decide)
      (by decide)
    rw [hz] at hp
    exact congrArg (· >>> 8) hp

theorem nat_land_two_pow_zero_of_testBit {a n : Nat}
    (h : a.testBit n = false) : a &&& 2 ^ n = 0 := by
  apply Nat.eq_of_testBit_eq
  intro i
  simp only [Nat.testBit_land, Nat.zero_testBit]
  rcases eq_or_ne n i with rfl | hne
  · simp [h]
  · simp [Nat.testBit_two_pow, hne]

/-- A RAM-range address (0x20000000 to 0x2FFFFFFF) fails the bus ROM test
(bit 28 clear) and passes the RAM test (bit 29 set). -/
theorem ram_region_facts {a : Nat} (hlo : RAM_START ≤ a)
    (hhi : a ≤ 0x2FFFFFFF) :
    a &&& PROGRAM_ROM_START ≠ PROGRAM_ROM_START
    ∧ a &&& RAM_START = RAM_START := by
  have hlo' : 536870912 ≤ a := hlo
  have hhi' : a ≤ 805306367 := hhi
  have hp28 : (2 : Nat) ^ 28 = 268435456 := by norm_num
  have hp29 : (2 : Nat) ^ 29 = 536870912 := by norm_num
  constructor
  · have ht : a.testBit 28 = false := by
      rw [Nat.testBit_to_div_mod, hp28]
      simp only [decide_eq_false_iff_not]
      omega
    have hz : a &&& PROGRAM_ROM_START = 0 := by
      have he : (PROGRAM_ROM_START : Nat) = 2 ^ 28 := by
        norm_num [PROGRAM_ROM_START]
      rw [he]
      exact nat_land_two_pow_zero_of_testBit ht
    rw [hz]
    norm_num [PROGRAM_ROM_START]
  · have ht : a.testBit 29 = true := by
      rw [Nat.testBit_to_div_mod, hp29]
      simp only [decide_eq_true_eq]
      omega
    have he : (RAM_START : Nat) = 2 ^ 29 := by norm_num [RAM_START]
    rw [he]
    exact nat_land_two_pow_of_testBit ht

/-- C9.  RAM round trip and lane preservation through the bus: for every
address in the RAM range, writing a byte, an aligned half-word or an aligned
word and reading it back at the same address and width returns the value
written; and a byte write leaves the other three byte lanes of its
containing word unchanged. -/
theorem ram_round_trip_and_lanes (bus : SystemInterface) (a v : Nat)
    (hlo : RAM_START ≤ a) (hhi : a ≤ 0x2FFFFFFF) :
    (v < 2 ^ 8 → ∀ b2, bus.write_byte a v = .ok b2 →
      b2.read_byte a = .ok v)
    ∧ (a &&& 0b1 = 0 → v < 2 ^ 16 → ∀ b2,
      bus.write_half_word a v = .ok b2 → b2.read_half_word a = .ok v)
    ∧ (a &&& 0b11 = 0 → v < 2 ^ 32 → ∀ b2,
      bus.write_word a v = .ok b2 → b2.read_word a = .ok v)
    ∧ (v < 2 ^ 8 → ∀ a2, RAM_START ≤ a2 → a2 ≤ 0x2FFFFFFF →
      a2 >>> 2 = a >>> 2 → a2 &&& 0b11 ≠ a &&& 0b11 → ∀ b2,
      bus.write_byte a v = .ok b2 → b2.read_byte a2 = bus.read_byte a2)
    := by
  obtain ⟨hrom, hram⟩ := ram_region_facts hlo hhi
  refine ⟨?_, ?_, ?_, ?_⟩
  · intro hv b2 hw
    rw [SystemInterface.write_byte, if_pos hram] at hw
    cases hw
    rw [SystemInterface.read_byte, if_neg hrom, if_pos hram]
    exact congrArg Except.ok (ram_byte_round_trip bus.ram _ v hv)
  · intro hal hv b2 hw
    rw [SystemInterface.write_half_word, if_neg (by simp [hal]),
      if_pos hram] at hw
    cases hw
    rw [SystemInterface.read_half_word, if_neg (by simp [hal]),
      if_neg hrom, if_pos hram]
    exact congrArg Except.ok (ram_half_round_trip bus.ram _ v hv)
  · intro hal _hv b2 hw
    rw [SystemInterface.write_word, if_neg (by simp [hal]),
      if_pos hram] at hw
    cases hw
    rw [SystemInterface.read_word, if_neg (by simp [hal]),
      if_neg hrom, if_pos hram]
    exact congrArg Except.ok (ram_word_round_trip bus.ram _ v)
  · intro hv a2 h2lo h2hi hsame hdiff b2 hw
    obtain ⟨hrom2, hram2⟩ := ram_region_facts h2lo h2hi
    rw [SystemInterface.write_byte, if_pos hram] at hw
    cases hw
    rw [SystemInterface.read_byte, if_neg hrom2, if_pos hram2,
      SystemInterface.read_byte, if_neg hrom2, if_pos hram2]
    have h3 : (0x0FFFFFFF : Nat) &&& 3 = 3 := by decide
    have hmask : ∀ x : Nat, (x &&& 0x0FFFFFFF) &&& 3 = x &&& 3 := by
      intro x
      rw [Nat.land_assoc, h3]
    refine congrArg Except.ok
      (ram_byte_write_preserves bus.ram _ _ v hv ?_ ?_)
    · rw [nat_land_shiftRight, nat_land_shiftRight, hsame]
    · rw [hmask, hmask]
      exact hdiff

/-- C9 witness: the round trip and a lane-preservation instance at concrete
RAM addresses 0x20000004 and 0x20000005. -/
theorem ram_round_trip_witness :
    (((SystemInterface.new RomDevice.new RamDevice.new).write_byte
        0x20000004 0xAB).map (fun b2 => b2.read_byte 0x20000004)
      = .ok (.ok 0xAB))
    ∧ (((SystemInterface.new RomDevice.new RamDevice.new).write_word
        0x20000004 0xDEADBEEF).map (fun b2 => b2.read_word 0x20000004)
      = .ok (.ok 0xDEADBEEF))
    ∧ (((SystemInterface.new RomDevice.new RamDevice.new).write_byte
        0x20000004 0xAB).map (fun b2 => b2.read_byte 0x20000005)
      = .ok (.ok 0xFF)) := by
  refine ⟨?_, ?_, ?_⟩
  · cases hw : (SystemInterface.new RomDevice.new RamDevice.new).write_byte
        0x20000004 0xAB with
    | error e =>
      have hok : ((SystemInterface.new RomDevice.new RamDevice.new).write_byte
          0x20000004 0xAB).isOk = true := rfl
      rw [hw] at hok
      simp [Except.isOk, Except.toBool] at hok
    | ok b2 =>
      have hr := (ram_round_trip_and_lanes
        (SystemInterface.new RomDevice.new RamDevice.new) 0x20000004 0xAB
        (by decide) (by decide)).1 (by decide) b2 hw
      simp only [Except.map]
      rw [hr]
  · cases hw : (SystemInterface.new RomDevice.new RamDevice.new).write_word
        0x20000004 0xDEADBEEF with
    | error e =>
      have hok : ((SystemInterface.new RomDevice.new RamDevice.new).write_word
          0x20000004 0xDEADBEEF).isOk = true := rfl
      rw [hw] at hok
      simp [Except.isOk, Except.toBool] at hok
    | ok b2 =>
      have hr := (ram_round_trip_and_lanes
        (SystemInterface.new RomDevice.new RamDevice.new) 0x20000004
        0xDEADBEEF (by decide) (by decide)).2.2.1 (by decide) (by decide)
        b2 hw
      simp only [Except.map]
      rw [hr]
  · cases hw : (SystemInterface.new RomDevice.new RamDevice.new).write_byte
        0x20000004 0xAB with
    | error e =>
      have hok : ((SystemInterface.new RomDevice.new RamDevice.new).write_byte
          0x20000004 0xAB).isOk = true := rfl
      rw [hw] at hok
      simp [Except.isOk, Except.toBool] at hok
    | ok b2 =>
      have hr := (ram_round_trip_and_lanes
        (SystemInterface.new RomDevice.new RamDevice.new) 0x20000004 0xAB
        (by decide) (by decide)).2.2.2 (by decide) 0x20000005 (by decide)
        (by decide) (by decide) (by decide) b2 hw
      simp only [Except.map]
      rw [hr]
      rfl

theorem csr_write_counters {c : CSRInterface} {a v : Nat} {c2 : CSRInterface}
    (h : c.write a v = some c2) :
    c2.cycles = c.cycles ∧ c2.instret = c.instret := by
  simp only [CSRInterface.write] at h
  split_ifs at h <;> (cases h; exact ⟨rfl, rfl⟩)

theorem trap_compute_cycles (t : TrapInterface) (c : CSRInterface)
    (bt btr : Bool) : (t.compute c bt btr).2.cycles = c.cycles := by
  unfold TrapInterface.compute
  repeat' split
  all_goals rfl

theorem trap_compute_instret (t : TrapInterface) (c : CSRInterface)
    (bt btr : Bool) : (t.compute c bt btr).2.instret = c.instret := by
  unfold TrapInterface.compute
  repeat' split
  all_goals rfl

theorem csr_compute_cycles_next (c : CSRInterface) :
    c.compute.cycles.next = c.cycles.get + 1 := rfl

theorem csr_compute_instret (c : CSRInterface) :
    c.compute.instret = c.instret := rfl

theorem ma_compute_counters {st : InstructionMemoryAccess} {stall : Bool}
    {ev : ExecutionValue} {bus : SystemInterface} {csr : CSRInterface}
    {out : InstructionMemoryAccess × SystemInterface × CSRInterface}
    (h : st.compute stall ev bus csr = some out) :
    out.2.2.cycles = csr.cycles ∧ out.2.2.instret = csr.instret := by
  unfold InstructionMemoryAccess.compute at h
  dsimp only [] at h
  split at h
  · cases h; exact ⟨rfl, rfl⟩
  · split at h
    case _ => cases h; exact ⟨rfl, rfl⟩
    case _ =>
      -- Load
      split at h
      · split at h
        · cases h; exact ⟨rfl, rfl⟩
        · cases h; exact ⟨rfl, rfl⟩
        · cases h
      · cases h
    case _ =>
      -- Store
      split at h
      · split at h
        · cases h; exact ⟨rfl, rfl⟩
        · cases h; exact ⟨rfl, rfl⟩
        · cases h
      · cases h
    case _ => cases h; exact ⟨rfl, rfl⟩
    case _ => cases h; exact ⟨rfl, rfl⟩
    case _ => cases h; exact ⟨rfl, rfl⟩
    case _ =>
      -- System
      split at h
      · cases h
      · split at h
        · split at h
          · rw [Option.map_eq_some'] at h
            obtain ⟨c1, hw, hfe⟩ := h
            cases hfe
            exact csr_write_counters hw
          · split at h
            · rw [Option.map_eq_some'] at h
              obtain ⟨c1, hw, hfe⟩ := h
              cases hfe
              exact csr_write_counters hw
            · split at h
              · rw [Option.map_eq_some'] at h
                obtain ⟨c1, hw, hfe⟩ := h
                cases hfe
                exact csr_write_counters hw
              · cases h; exact ⟨rfl, rfl⟩
        · cases h; exact ⟨rfl, rfl⟩
    case _ => cases h; exact ⟨rfl, rfl⟩
    case _ => cases h; exact ⟨rfl, rfl⟩

theorem computeTrapEntry_csr (s : RV32ISystem) (ts : Bool)
    (tp : Option PipelineTrapParams) :
    (s.computeTrapEntry ts tp).csr = s.csr := by
  unfold RV32ISystem.computeTrapEntry
  dsimp only []
  repeat' split
  all_goals rfl

theorem computeMretEntry_csr (s : RV32ISystem) (m : Bool) :
    (s.computeMretEntry m).csr = s.csr := by
  unfold RV32ISystem.computeMretEntry
  split <;> rfl

theorem computeFlush_csr (s : RV32ISystem) : s.computeFlush.csr = s.csr := by
  unfold RV32ISystem.computeFlush
  split <;> rfl

theorem computeAdvancePhase_cycles (s : RV32ISystem) (b : Bool) :
    (s.computeAdvancePhase b).csr.cycles = s.csr.cycles := by
  unfold RV32ISystem.computeAdvancePhase
  repeat' split
  all_goals rfl

theorem cycles_per_tick (s s2 : RV32ISystem) (h : s.cycle = some s2) :
    s2.csr.cycles.get = s.csr.cycles.get + 1 := by
  unfold RV32ISystem.cycle at h
  cases hc : s.compute with
  | none => rw [hc] at h; cases h
  | some sc =>
    rw [hc] at h
    cases h
    show sc.csr.cycles.next = s.csr.cycles.get + 1
    unfold RV32ISystem.compute at hc
    dsimp only [] at hc
    split at hc
    · cases hc
    · split at hc
      · cases hc
      · rename_i stIF hIF stMA bus2 csr2 hMA
        cases hc
        rw [computeAdvancePhase_cycles]
        simp only [trap_compute_cycles, csr_compute_cycles_next]
        rw [(ma_compute_counters hMA).1]
        simp only [computeFlush_csr, computeMretEntry_csr,
          computeTrapEntry_csr]

theorem computeTrapEntry_id {s : RV32ISystem} (tp : Option PipelineTrapParams)
    (hne : s.state.get ≠ CPUState.Trap) :
    s.computeTrapEntry false tp = s := by
  unfold RV32ISystem.computeTrapEntry
  simp [hne]

theorem computeMretEntry_id (s : RV32ISystem) : s.computeMretEntry false = s
    := by
  unfold RV32ISystem.computeMretEntry
  simp

theorem computeFlush_state (s : RV32ISystem) :
    s.computeFlush.state = s.state := by
  unfold RV32ISystem.computeFlush
  split <;> rfl

theorem advance_state_next (s : RV32ISystem) (ps : PipelineState)
    (h : s.state.get = CPUState.Pipeline ps) :
    ((s.computeAdvancePhase false).state.next
      = CPUState.Pipeline ps.nextPhase)
    ∧ ((s.computeAdvancePhase false).csr.instret.next
      = if ps = PipelineState.WriteBack then s.csr.instret.get + 1
        else s.csr.instret.next) := by
  unfold RV32ISystem.computeAdvancePhase
  rw [if_pos rfl, h]
  cases ps <;> exact ⟨rfl, rfl⟩

theorem phase_step (s s2 : RV32ISystem) (ps : PipelineState)
    (hst : s.state.get = CPUState.Pipeline ps)
    (hnt : noTrapSignals s = true) (hset : instretSettled s)
    (h : s.cycle = some s2) :
    s2.state.get = CPUState.Pipeline ps.nextPhase
    ∧ s2.csr.instret.get = s.csr.instret.get +
        (if ps = PipelineState.WriteBack then 1 else 0) := by
  simp only [noTrapSignals, Bool.and_eq_true, Bool.not_eq_true'] at hnt
  obtain ⟨⟨hma, hde⟩, hrft⟩ := hnt
  have hne : s.state.get ≠ CPUState.Trap := by
    rw [hst]; intro hx; cases hx
  unfold RV32ISystem.cycle at h
  cases hc : s.compute with
  | none => rw [hc] at h; cases h
  | some sc =>
    rw [hc] at h
    cases h
    unfold RV32ISystem.compute at hc
    dsimp only [] at hc
    rw [hma, hde, hrft] at hc
    simp only [if_neg (by simp : ¬ (false = true)), Option.isSome_none,
      Bool.or_false, Bool.false_or, hst] at hc
    have hdec : decide (CPUState.Pipeline ps = CPUState.Trap) = false := by
      simp
    rw [hdec] at hc
    rw [computeTrapEntry_id none (by exact hne)] at hc
    rw [computeMretEntry_id] at hc
    set B := RV32ISystem.computeFlush
      { s with trap_stall := false, mret := false } with hBdef
    have hBstate : B.state = s.state := by
      rw [hBdef, computeFlush_state]
    have hBcsr : B.csr = s.csr := by
      rw [hBdef, computeFlush_csr]
    split at hc
    · cases hc
    · rename_i stIF hIF
      split at hc
      · cases hc
      · rename_i stMA bus2 csr2 hMA
        cases hc
        refine ⟨(advance_state_next _ ps ?_).1, ?_⟩
        · show B.state.get = CPUState.Pipeline ps
          rw [hBstate]
          exact hst
        · show (RV32ISystem.computeAdvancePhase _ false).csr.instret.next = _
          rw [(advance_state_next _ ps
            (by show B.state.get = CPUState.Pipeline ps;
                rw [hBstate]; exact hst)).2]
          rw [trap_compute_instret, csr_compute_instret]
          have hx := (ma_compute_counters hMA).2
          rw [hx, hBcsr]
          by_cases hwb : ps = PipelineState.WriteBack <;>
            simp [hwb, LatchValue.get, hset.symm]

theorem cycle_settled {s s2 : RV32ISystem} (h : s.cycle = some s2) :
    instretSettled s2 := by
  unfold RV32ISystem.cycle at h
  cases hc : s.compute with
  | none => rw [hc] at h; cases h
  | some sc => rw [hc] at h; cases h; rfl

theorem fsm_five_cycles_per_instruction :
    (∀ s s2 : RV32ISystem, s.cycle = some s2 →
      s2.csr.cycles.get = s.csr.cycles.get + 1)
    ∧ (∀ (s s2 : RV32ISystem) (ps : PipelineState),
      s.state.get = CPUState.Pipeline ps → noTrapSignals s = true →
      instretSettled s → s.cycle = some s2 →
      s2.state.get = CPUState.Pipeline ps.nextPhase
      ∧ s2.csr.instret.get = s.csr.instret.get +
          (if ps = PipelineState.WriteBack then 1 else 0))
    ∧ (∀ s s1 s2 s3 s4 s5 : RV32ISystem,
      s.state.get = CPUState.Pipeline PipelineState.Fetch →
      instretSettled s →
      noTrapSignals s = true → noTrapSignals s1 = true →
      noTrapSignals s2 = true → noTrapSignals s3 = true →
      noTrapSignals s4 = true →
      s.cycle = some s1 → s1.cycle = some s2 → s2.cycle = some s3 →
      s3.cycle = some s4 → s4.cycle = some s5 →
      s5.state.get = CPUState.Pipeline PipelineState.Fetch
      ∧ s5.csr.instret.get = s.csr.instret.get + 1
      ∧ s5.csr.cycles.get = s.csr.cycles.get + 5) := by
  refine ⟨cycles_per_tick, phase_step, ?_⟩
  intro s s1 s2 s3 s4 s5 hst hset hn0 hn1 hn2 hn3 hn4 h01 h12 h23 h34 h45
  have q1 := phase_step s s1 PipelineState.Fetch hst hn0 hset h01
  have q2 := phase_step s1 s2 PipelineState.Decode q1.1 hn1
    (cycle_settled h01) h12
  have q3 := phase_step s2 s3 PipelineState.Execute q2.1 hn2
    (cycle_settled h12) h23
  have q4 := phase_step s3 s4 PipelineState.MemoryAccess q3.1 hn3
    (cycle_settled h23) h34
  have q5 := phase_step s4 s5 PipelineState.WriteBack q4.1 hn4
    (cycle_settled h34) h45
  refine ⟨q5.1, ?_, ?_⟩
  · have i1 := q1.2
    have i2 := q2.2
    have i3 := q3.2
    have i4 := q4.2
    have i5 := q5.2
    simp at i1 i2 i3 i4 i5
    omega
  · have c1 := cycles_per_tick s s1 h01
    have c2 := cycles_per_tick s1 s2 h12
    have c3 := cycles_per_tick s2 s3 h23
    have c4 := cycles_per_tick s3 s4 h34
    have c5 := cycles_per_tick s4 s5 h45
    omega

theorem fsm_five_cycles_witness :
    ((RV32ISystem.new.runCycles 5).map
      (fun s => (s.state.get, s.csr.instret.get, s.csr.cycles.get)))
    = some (CPUState.Pipeline PipelineState.Fetch, 1, 5) := by
  cases h1 : RV32ISystem.new.cycle with
  | none =>
    have hm : RV32ISystem.new.cycle.isSome = true := rfl
    rw [h1] at hm
    cases hm
  | some s1 =>
    have n1 : noTrapSignals s1 = true := by
      have hm : RV32ISystem.new.cycle.map noTrapSignals = some true := rfl
      rw [h1] at hm
      simpa using hm
    cases h2 : s1.cycle with
    | none =>
      have hm : (RV32ISystem.new.runCycles 2).isSome = true := rfl
      simp only [RV32ISystem.runCycles, h1, h2] at hm
      exact absurd hm (by simp)
    | some s2 =>
      have n2 : noTrapSignals s2 = true := by
        have hm : (RV32ISystem.new.runCycles 2).map noTrapSignals
            = some true := rfl
        simp only [RV32ISystem.runCycles, h1, h2] at hm
        simpa using hm
      cases h3 : s2.cycle with
      | none =>
        have hm : (RV32ISystem.new.runCycles 3).isSome = true := rfl
        simp only [RV32ISystem.runCycles, h1, h2, h3] at hm
        exact absurd hm (by simp)
      | some s3 =>
        have n3 : noTrapSignals s3 = true := by
          have hm : (RV32ISystem.new.runCycles 3).map noTrapSignals
              = some true := rfl
          simp only [RV32ISystem.runCycles, h1, h2, h3] at hm
          simpa using hm
        cases h4 : s3.cycle with
        | none =>
          have hm : (RV32ISystem.new.runCycles 4).isSome = true := rfl
          simp only [RV32ISystem.runCycles, h1, h2, h3, h4] at hm
          exact absurd hm (by simp)
        | some s4 =>
          have n4 : noTrapSignals s4 = true := by
            have hm : (RV32ISystem.new.runCycles 4).map noTrapSignals
                = some true := rfl
            simp only [RV32ISystem.runCycles, h1, h2, h3, h4] at hm
            simpa using hm
          cases h5 : s4.cycle with
          | none =>
            have hm : (RV32ISystem.new.runCycles 5).isSome = true := rfl
            simp only [RV32ISystem.runCycles, h1, h2, h3, h4, h5] at hm
            exact absurd hm (by simp)
          | some s5 =>
            have hq := fsm_five_cycles_per_instruction.2.2
              RV32ISystem.new s1 s2 s3 s4 s5 rfl rfl rfl n1 n2 n3 n4
              h1 h2 h3 h4 h5
            simp only [RV32ISystem.runCycles, h1, h2, h3, h4, h5,
              Option.map]
            rw [hq.1, hq.2.1, hq.2.2]
            rfl
